import Mathlib

/-!
Stratum RPC handlers of the mining-pool proxy (`proxy/handlers.go`).

A shallow embedding of the handlers `handleLoginRPC`, `handleGetWorkRPC`,
`handleTCPSubmitRPC`, `handleSubmitRPC`, `handleGetBlockByNumberRPC` and
`handleUnknownRPC`, followed by theorems about them.

Conventions of the embedding.

* A `*Session` is a reference (`SessionRef`) into a memory `State.mem`; the
  registry `s.sessions` is keyed by the reference, as the Go map is keyed by the
  pointer.
* The collaborators that live outside `handlers.go` (the policy engine, the
  share engine, the template source, the clock, the job push, the helpers of the
  `util` package) are fields of `Collaborators`; the stateful ones thread an
  abstract world `W`.
* Every call to a stateful collaborator and every log line is appended to
  `State.calls`, so that "is called once" and "is never called" are statements
  about that list.
* Go run-time panics that the handlers can raise themselves (integer division by
  zero, slicing past the end of a string, reading a field through a nil
  pointer) are the `Outcome.panic` results.
* `int64` values are `Int`s, wrapped with `toInt64` where the Go code can leave
  the range.
* The `float64` product of the retarget step is `scaleDiff`: integer arithmetic
  with the rounding of IEEE 754 doubles, round to nearest, ties to even.
-/

namespace Proxy

/-! ## Data model -/

/-- The `ErrorReply` of the handlers: a numeric code and a message. -/
structure ErrorReply where
  Code : Int
  Message : String
deriving DecidableEq, Repr

/-- The cached pending-block summary `rpc.GetBlockReplyPart`; the handlers only
pass it on and never look inside. -/
structure GetBlockReplyPart where
  payload : String
deriving DecidableEq, Repr

/-- The fields of `BlockTemplate` that the handlers read. -/
structure BlockTemplate where
  Header : String
  Seed : String
  GetPendingBlockCache : Option GetBlockReplyPart
deriving DecidableEq, Repr

/-- The fields of `Session` that the handlers read or write. -/
structure Session where
  login : String
  id : String
  ip : String
  diff : String
  lastShareTime : Int
deriving DecidableEq, Repr

/-- The identity of a `*Session` pointer. -/
abbrev SessionRef := Nat

/-- The record `config.Proxy.DynamicDifficulty`. -/
structure DynamicDifficulty where
  Enabled : Bool
  MaxSubmitRate : Int
  MinSubmitRate : Int
deriving DecidableEq, Repr

/-- The record `config.Proxy`. -/
structure ProxyConfig where
  DynamicDifficulty : DynamicDifficulty
deriving DecidableEq, Repr

/-- The record `s.config`. -/
structure Config where
  Proxy : ProxyConfig
deriving DecidableEq, Repr

/-- The three loggers used by the handlers. -/
inductive Logger where
  | Info
  | Error
  | ShareLog
deriving DecidableEq, Repr

/-- An argument of a `Printf` call. -/
inductive LogArg where
  | str (s : String)
  | bytes (b : List UInt8)
  | int (n : Int)
  | strs (l : List String)
  | err (e : String)
deriving DecidableEq, Repr

/-- A call that leaves `handlers.go`, with its arguments. -/
inductive Call where
  | ApplyLoginPolicy (login ip : String)
  | ApplyMalformedPolicy (ip : String)
  | ApplySharePolicy (ip : String) (validShare : Bool)
  | processShare (login id ip : String) (diff : Int) (t : Option BlockTemplate)
      (params : List String)
  | registerSession (cs : SessionRef)
  | pushNewJob (cs : SessionRef) (reply : List String)
  | MakeTimestamp
  | Printf (l : Logger) (format : String) (args : List LogArg)
deriving DecidableEq, Repr

/-- The run-time panics the handlers can raise. -/
inductive RuntimeError where
  | integerDivideByZero
  | sliceBoundsOutOfRange
  | nilPointerDereference
deriving DecidableEq, Repr

/-- The result of a handler call: it returns, or the goroutine panics. -/
inductive Outcome (α : Type) where
  | ret (a : α)
  | panic (e : RuntimeError)
deriving DecidableEq, Repr

/-- The collaborators of the handlers that are defined outside `handlers.go`.
The stateful ones take the world and give back the new one. -/
structure Collaborators (W : Type) where
  /-- The function `unicode.ToLower` on the runes outside ASCII. -/
  unicodeToLower : Char → Char
  /-- The helper `util.IsValidHexAddress`. -/
  IsValidHexAddress : String → Bool
  /-- The helper `util.TargetHexToDiff`, a big integer. -/
  TargetHexToDiff : String → Int
  /-- The helper `util.GetTargetHex`. -/
  GetTargetHex : Int → String
  /-- The helper `util.MakeTimestamp`, in milliseconds. -/
  MakeTimestamp : W → Int × W
  /-- The method `s.policy.ApplyLoginPolicy(login, ip)`. -/
  ApplyLoginPolicy : W → String → String → Bool × W
  /-- The method `s.policy.ApplyMalformedPolicy(ip)`. -/
  ApplyMalformedPolicy : W → String → Bool × W
  /-- The method `s.policy.ApplySharePolicy(ip, validShare)`. -/
  ApplySharePolicy : W → String → Bool → Bool × W
  /-- The method `s.processShare(login, id, ip, diff, t, params)`, giving
  `(exist, validShare)`. -/
  processShare : W → String → String → String → Int → Option BlockTemplate →
    List String → (Bool × Bool) × W
  /-- The method `s.currentBlockTemplate()`; `none` is the nil template. -/
  currentBlockTemplate : W → Option BlockTemplate
  /-- The method `s.isSick()`. -/
  isSick : W → Bool
  /-- The method `cs.pushNewJob(&reply)`; `none` is the nil error. -/
  pushNewJob : W → SessionRef → List String → Option String × W

/-- The parts of `ProxyServer` that the handlers read and never write. -/
structure ProxyServer (W : Type) where
  config : Config
  diff : String
  ext : Collaborators W

/-- The mutable state the handlers act on. -/
structure State (W : Type) where
  /-- The state of the collaborators. -/
  world : W
  /-- The keys of the registry map `s.sessions`. -/
  sessions : List SessionRef
  /-- The session each reference points to. -/
  mem : SessionRef → Session
  /-- The calls made so far, oldest first. -/
  calls : List Call

/-! ## Patterns -/

/-- The character class `[0-9a-f]`. -/
def isLowerHexDigit (c : Char) : Bool :=
  (48 ≤ c.toNat && c.toNat ≤ 57) || (97 ≤ c.toNat && c.toNat ≤ 102)

/-- The character class `[0-9a-zA-Z-_]`. -/
def isWorkerChar (c : Char) : Bool :=
  (48 ≤ c.toNat && c.toNat ≤ 57) || (97 ≤ c.toNat && c.toNat ≤ 122) ||
    (65 ≤ c.toNat && c.toNat ≤ 90) || c.toNat == 45 || c.toNat == 95

/-- The matcher `noncePattern.MatchString`, for `^0x[0-9a-f]{16}$`. -/
def noncePattern (str : String) : Bool :=
  match str.data with
  | '0' :: 'x' :: rest => rest.length == 16 && rest.all isLowerHexDigit
  | _ => false

/-- The matcher `hashPattern.MatchString`, for `^0x[0-9a-f]{64}$`. -/
def hashPattern (str : String) : Bool :=
  match str.data with
  | '0' :: 'x' :: rest => rest.length == 64 && rest.all isLowerHexDigit
  | _ => false

/-- The matcher `workerPattern.MatchString`, for `^[0-9a-zA-Z-_]{1,64}$`. -/
def workerPattern (str : String) : Bool :=
  1 ≤ str.data.length && str.data.length ≤ 64 && str.data.all isWorkerChar

/-! ## Helpers from the Go language and library -/

/-- The function `strings.ToLower`: ASCII letters by the ASCII rule, other runes
by `unicode.ToLower`. -/
def ToLower (unicodeToLower : Char → Char) (str : String) : String :=
  String.mk (str.data.map fun c => if c.toNat < 128 then c.toLower else unicodeToLower c)

/-- The bytes of a Go string. -/
def bytesOf (str : String) : List UInt8 :=
  (str.data.map String.utf8EncodeChar).flatten

/-- Conversion to `int64`: the value modulo `2^64`, in `[-2^63, 2^63)`. -/
def toInt64 (n : Int) : Int :=
  (n + 2 ^ 63) % 2 ^ 64 - 2 ^ 63

/-- The number of binary digits of `n`, with `fuel` at least that number. -/
def bitLenAux : Nat → Nat → Nat
  | 0, _ => 0
  | fuel + 1, n => if n = 0 then 0 else bitLenAux fuel (n / 2) + 1

/-- The number of binary digits of `n`. -/
def bitLen (n : Nat) : Nat :=
  bitLenAux n n

/-- Rounding of a natural number to 53 significant binary digits, ties to
even: the rounding of `float64` arithmetic. -/
def roundNearestEven53 (n : Nat) : Nat :=
  let e := bitLen n - 53
  let q := n / 2 ^ e
  let r := n % 2 ^ e
  if 2 * r > 2 ^ e ∨ (2 * r = 2 ^ e ∧ q % 2 = 1) then (q + 1) * 2 ^ e else q * 2 ^ e

/-- The three `float64` factors of the retarget step. -/
inductive Factor where
  | up
  | down
  | same
deriving DecidableEq, Repr

/-- The `float64` constant of a factor as a multiple of `2^-52`: the doubles
nearest to `1.2` and `0.8`, and `1.0`. -/
def Factor.significand : Factor → Nat
  | .up => 5404319552844595
  | .down => 3602879701896397
  | .same => 4503599627370496

/-- The expression `int64(float64(diff) * factor)`. The integer is rounded to a
double, the product is rounded to a double and the result is truncated toward
zero. Where the truncated value is outside `int64` Go leaves the result to the
platform; the value taken here is the one of amd64, `-2^63`. -/
def scaleDiff (diff : Int) (factor : Factor) : Int :=
  let a := roundNearestEven53 diff.natAbs
  let p : Int := (roundNearestEven53 (a * factor.significand) / 2 ^ 52 : Nat)
  let v := if diff < 0 then -p else p
  if -(2 ^ 63) ≤ v ∧ v < 2 ^ 63 then v else -(2 ^ 63)

/-! ## Calls to the collaborators -/

variable {W : Type}

/-- Appends a call to the record of calls. -/
def State.record (σ : State W) (c : Call) : State W :=
  { σ with calls := σ.calls ++ [c] }

/-- A log line. -/
def Printf (σ : State W) (l : Logger) (format : String) (args : List LogArg) : State W :=
  σ.record (.Printf l format args)

/-- The call `s.policy.ApplyLoginPolicy(login, ip)`. -/
def ApplyLoginPolicy (s : ProxyServer W) (σ : State W) (login ip : String) : Bool × State W :=
  let r := s.ext.ApplyLoginPolicy σ.world login ip
  (r.1, { σ with world := r.2, calls := σ.calls ++ [.ApplyLoginPolicy login ip] })

/-- The call `s.policy.ApplyMalformedPolicy(ip)`. -/
def ApplyMalformedPolicy (s : ProxyServer W) (σ : State W) (ip : String) : Bool × State W :=
  let r := s.ext.ApplyMalformedPolicy σ.world ip
  (r.1, { σ with world := r.2, calls := σ.calls ++ [.ApplyMalformedPolicy ip] })

/-- The call `s.policy.ApplySharePolicy(ip, validShare)`. -/
def ApplySharePolicy (s : ProxyServer W) (σ : State W) (ip : String) (validShare : Bool) :
    Bool × State W :=
  let r := s.ext.ApplySharePolicy σ.world ip validShare
  (r.1, { σ with world := r.2, calls := σ.calls ++ [.ApplySharePolicy ip validShare] })

/-- The call `s.processShare(login, id, ip, diff, t, params)`. -/
def processShare (s : ProxyServer W) (σ : State W) (login id ip : String) (diff : Int)
    (t : Option BlockTemplate) (params : List String) : (Bool × Bool) × State W :=
  let r := s.ext.processShare σ.world login id ip diff t params
  (r.1, { σ with world := r.2, calls := σ.calls ++ [.processShare login id ip diff t params] })

/-- The call `MakeTimestamp()`. -/
def MakeTimestamp (s : ProxyServer W) (σ : State W) : Int × State W :=
  let r := s.ext.MakeTimestamp σ.world
  (r.1, { σ with world := r.2, calls := σ.calls ++ [.MakeTimestamp] })

/-- The call `cs.pushNewJob(&reply)`. -/
def pushNewJob (s : ProxyServer W) (σ : State W) (cs : SessionRef) (reply : List String) :
    Option String × State W :=
  let r := s.ext.pushNewJob σ.world cs reply
  (r.1, { σ with world := r.2, calls := σ.calls ++ [.pushNewJob cs reply] })

/-- Modelled from the spec: `registerSession` is not in `handlers.go`. The spec
has the registry as a set of sessions in which `register(session)` makes the
session present for every later lookup. -/
def registerSession (σ : State W) (cs : SessionRef) : State W :=
  { σ with
    sessions := if σ.sessions.contains cs then σ.sessions else cs :: σ.sessions,
    calls := σ.calls ++ [.registerSession cs] }

/-- Assignment to the fields of `*cs`. -/
def State.store (σ : State W) (cs : SessionRef) (v : Session) : State W :=
  { σ with mem := fun r => if r = cs then v else σ.mem r }

/-! ## The handlers -/

/-- The handler `handleLoginRPC`. -/
def handleLoginRPC (s : ProxyServer W) (σ : State W) (cs : SessionRef) (params : List String)
    (id : String) : (Bool × Option ErrorReply) × State W :=
  match params with
  | [] => ((false, some ⟨-1, "Invalid params"⟩), σ)
  | p0 :: _ =>
    let login := ToLower s.ext.unicodeToLower p0
    if !s.ext.IsValidHexAddress login then
      ((false, some ⟨-1, "Invalid login"⟩), σ)
    else
      let r := ApplyLoginPolicy s σ login (σ.mem cs).ip
      let σ := r.2
      if !r.1 then
        ((false, some ⟨-1, "You are blacklisted"⟩), σ)
      else
        let σ := σ.store cs { σ.mem cs with login := login }
        let σ := σ.store cs { σ.mem cs with id := id }
        let σ := σ.store cs { σ.mem cs with diff := s.diff }
        let σ := registerSession σ cs
        let σ := Printf σ .Info "Stratum miner connected %v.%v@%v"
          [.str login, .str (σ.mem cs).id, .str (σ.mem cs).ip]
        ((true, none), σ)

/-- The handler `handleGetWorkRPC`. -/
def handleGetWorkRPC (s : ProxyServer W) (σ : State W) (cs : SessionRef) :
    (Option (List String) × Option ErrorReply) × State W :=
  match s.ext.currentBlockTemplate σ.world with
  | none => ((none, some ⟨0, "Work not ready"⟩), σ)
  | some t =>
    if t.Header.utf8ByteSize == 0 || s.ext.isSick σ.world then
      ((none, some ⟨0, "Work not ready"⟩), σ)
    else
      ((some [t.Header, t.Seed, (σ.mem cs).diff], none), σ)

/-- The first statement of `handleSubmitRPC`: a worker id that does not match
`workerPattern` is replaced by `"0"`. -/
def workerOrDefault (id : String) : String :=
  if !workerPattern id then "0" else id

/-- The last statements of `handleSubmitRPC`: the time stamp is stored and the
share is acknowledged. -/
def recordShareTime (s : ProxyServer W) (σ : State W) (cs : SessionRef) :
    Outcome (Bool × Option ErrorReply) × State W :=
  let r := MakeTimestamp s σ
  let σ := r.2
  let σ := σ.store cs { σ.mem cs with lastShareTime := r.1 }
  (.ret (true, none), σ)

/-- The body of the `if` at the end of `handleSubmitRPC`: the difficulty of the
session is retargeted from the time since its last share and the new job is
pushed. `id` is the worker id after the fallback and `t` the template read at
the start of the handler. -/
def retarget (s : ProxyServer W) (σ : State W) (cs : SessionRef) (login id : String)
    (t : Option BlockTemplate) : Outcome Unit × State W :=
  let r := MakeTimestamp s σ
  let σ := r.2
  let roundDuration := toInt64 (r.1 - (σ.mem cs).lastShareTime)
  if roundDuration = 0 then
    (.panic .integerDivideByZero, σ)
  else
    let submitRate := Int.tdiv (60 * 1000) roundDuration
    let diff := toInt64 (s.ext.TargetHexToDiff (σ.mem cs).diff)
    let factor :=
      if submitRate > s.config.Proxy.DynamicDifficulty.MaxSubmitRate then Factor.up
      else if submitRate < s.config.Proxy.DynamicDifficulty.MinSubmitRate then Factor.down
      else Factor.same
    let diff := scaleDiff diff factor
    let σ := σ.store cs { σ.mem cs with diff := s.ext.GetTargetHex diff }
    if login.utf8ByteSize < 10 then
      (.panic .sliceBoundsOutOfRange, σ)
    else
      let σ := Printf σ .Info "Diff adjust to %d in %s.%s(%s)"
        [.int diff, .bytes ((bytesOf login).take 10), .str id, .str (σ.mem cs).ip]
      match t with
      | none => (.panic .nilPointerDereference, σ)
      | some t =>
        let reply := [t.Header, t.Seed, (σ.mem cs).diff]
        let e := pushNewJob s σ cs reply
        let σ := e.2
        match e.1 with
        | some err =>
          (.ret (), Printf σ .Error "Job transmit error to %v.%v@%v: %v"
            [.str (σ.mem cs).login, .str id, .str (σ.mem cs).ip, .err err])
        | none =>
          (.ret (), Printf σ .Error "Send new job to stratum miner: %v.%v@%v"
            [.str (σ.mem cs).login, .str id, .str (σ.mem cs).ip])

/-- What follows the retarget step in `handleSubmitRPC`: a panic of the step
ends the handler, otherwise the time stamp is stored. -/
def afterRetarget (s : ProxyServer W) (cs : SessionRef) (x : Outcome Unit × State W) :
    Outcome (Bool × Option ErrorReply) × State W :=
  match x.1 with
  | .panic e => (.panic e, x.2)
  | .ret () => recordShareTime s x.2 cs

/-- The handler `handleSubmitRPC`. -/
def handleSubmitRPC (s : ProxyServer W) (σ : State W) (cs : SessionRef) (login id : String)
    (params : List String) : Outcome (Bool × Option ErrorReply) × State W :=
  let id := workerOrDefault id
  if params.length != 3 then
    let σ := (ApplyMalformedPolicy s σ (σ.mem cs).ip).2
    let σ := Printf σ .Error "Malformed params from %s@%s %v"
      [.str login, .str (σ.mem cs).ip, .strs params]
    (.ret (false, some ⟨-1, "Invalid params"⟩), σ)
  else if !noncePattern (params.getD 0 "") || !hashPattern (params.getD 1 "") ||
      !hashPattern (params.getD 2 "") then
    let σ := (ApplyMalformedPolicy s σ (σ.mem cs).ip).2
    let σ := Printf σ .Error "Malformed PoW result from %s@%s %v"
      [.str login, .str (σ.mem cs).ip, .strs params]
    (.ret (false, some ⟨-1, "Malformed PoW result"⟩), σ)
  else
    let t := s.ext.currentBlockTemplate σ.world
    let r := processShare s σ login id (σ.mem cs).ip
      (toInt64 (s.ext.TargetHexToDiff (σ.mem cs).diff)) t params
    let exist := r.1.1
    let validShare := r.1.2
    let σ := r.2
    let p := ApplySharePolicy s σ (σ.mem cs).ip (!exist && validShare)
    let ok := p.1
    let σ := p.2
    if exist then
      let σ := Printf σ .Error "Duplicate share from %s@%s %v"
        [.str login, .str (σ.mem cs).ip, .strs params]
      let σ := Printf σ .ShareLog "Duplicate share from %s@%s %v"
        [.str login, .str (σ.mem cs).ip, .strs params]
      (.ret (false, some ⟨22, "Duplicate share"⟩), σ)
    else if !validShare then
      let σ := Printf σ .Error "Invalid share from %s.%s@%s"
        [.str login, .str id, .str (σ.mem cs).ip]
      let σ := Printf σ .ShareLog "Invalid share from %s.%s@%s"
        [.str login, .str id, .str (σ.mem cs).ip]
      if !ok then
        (.ret (false, some ⟨23, "Invalid share"⟩), σ)
      else
        (.ret (false, none), σ)
    else
      let σ := Printf σ .Info "Valid share from %s.%s@%s"
        [.str login, .str id, .str (σ.mem cs).ip]
      let σ := Printf σ .ShareLog "Valid share from %s.%s@%s"
        [.str login, .str id, .str (σ.mem cs).ip]
      if !ok then
        (.ret (true, some ⟨-1, "High rate of invalid shares"⟩), σ)
      else if s.config.Proxy.DynamicDifficulty.Enabled && (σ.mem cs).lastShareTime != 0 then
        afterRetarget s cs (retarget s σ cs login id t)
      else
        recordShareTime s σ cs

/-- The handler `handleTCPSubmitRPC`. -/
def handleTCPSubmitRPC (s : ProxyServer W) (σ : State W) (cs : SessionRef) (id : String)
    (params : List String) : Outcome (Bool × Option ErrorReply) × State W :=
  let ok := σ.sessions.contains cs
  if !ok then
    (.ret (false, some ⟨25, "Not subscribed"⟩), σ)
  else
    handleSubmitRPC s σ cs (σ.mem cs).login id params

/-- The handler `handleGetBlockByNumberRPC`. -/
def handleGetBlockByNumberRPC (s : ProxyServer W) (σ : State W) :
    Option GetBlockReplyPart × State W :=
  match s.ext.currentBlockTemplate σ.world with
  | some t => (t.GetPendingBlockCache, σ)
  | none => (none, σ)

/-- The handler `handleUnknownRPC`. -/
def handleUnknownRPC (s : ProxyServer W) (σ : State W) (cs : SessionRef) (m : String) :
    ErrorReply × State W :=
  let σ := Printf σ .Error "Unknown request method %s from %s" [.str m, .str (σ.mem cs).ip]
  let σ := (ApplyMalformedPolicy s σ (σ.mem cs).ip).2
  (⟨-3, "Method not found"⟩, σ)

/-! ## Sequences of handler calls -/

/-- A request to one of the handlers. `submit` is the session-bound form. -/
inductive Request where
  | login (cs : SessionRef) (params : List String) (id : String)
  | getWork (cs : SessionRef)
  | submit (cs : SessionRef) (id : String) (params : List String)
  | getBlockByNumber
  | unknown (cs : SessionRef) (m : String)
deriving DecidableEq, Repr

/-- The answer of the handler a request went to. -/
inductive Reply where
  | login (r : Bool × Option ErrorReply)
  | getWork (r : Option (List String) × Option ErrorReply)
  | submit (r : Outcome (Bool × Option ErrorReply))
  | getBlockByNumber (r : Option GetBlockReplyPart)
  | unknown (r : ErrorReply)
deriving DecidableEq, Repr

/-- Whether the handler panicked. -/
def Reply.isPanic : Reply → Bool
  | .submit (.panic _) => true
  | _ => false

/-- One request handed to its handler. -/
def dispatch (s : ProxyServer W) (σ : State W) : Request → Reply × State W
  | .login cs params id => let r := handleLoginRPC s σ cs params id; (.login r.1, r.2)
  | .getWork cs => let r := handleGetWorkRPC s σ cs; (.getWork r.1, r.2)
  | .submit cs id params => let r := handleTCPSubmitRPC s σ cs id params; (.submit r.1, r.2)
  | .getBlockByNumber => let r := handleGetBlockByNumberRPC s σ; (.getBlockByNumber r.1, r.2)
  | .unknown cs m => let r := handleUnknownRPC s σ cs m; (.unknown r.1, r.2)

/-- A sequence of requests handled one after the other on the same state. The
answers are collected in order; a panic ends the run. -/
def run (s : ProxyServer W) (σ : State W) : List Request → List (Request × Reply) × State W
  | [] => ([], σ)
  | q :: qs =>
    let r := dispatch s σ q
    if r.1.isPanic then ([(q, r.1)], r.2)
    else
      let rest := run s r.2 qs
      ((q, r.1) :: rest.1, rest.2)

/-- Whether an entry of a run is a successful login of `cs`. -/
def isLoginSuccess (cs : SessionRef) : Request × Reply → Bool
  | (.login c _ _, .login (true, none)) => c == cs
  | _ => false

/-- Whether an entry of a run is a session-bound submit of `cs` answered with
error code 25. -/
def isNotSubscribed (cs : SessionRef) : Request × Reply → Bool
  | (.submit c _ _, .submit (.ret (_, some e))) => c == cs && e.Code == 25
  | _ => false

/-! ## Classes of calls -/

/-- Whether a call is `ApplyMalformedPolicy`. -/
def Call.isApplyMalformedPolicy : Call → Bool
  | .ApplyMalformedPolicy _ => true
  | _ => false

/-- Whether a call is `ApplyLoginPolicy`. -/
def Call.isApplyLoginPolicy : Call → Bool
  | .ApplyLoginPolicy _ _ => true
  | _ => false

/-- Whether a call is `ApplySharePolicy`. -/
def Call.isApplySharePolicy : Call → Bool
  | .ApplySharePolicy _ _ => true
  | _ => false

/-- Whether a call is `processShare`. -/
def Call.isProcessShare : Call → Bool
  | .processShare _ _ _ _ _ _ => true
  | _ => false

/-- Whether a call is `pushNewJob`. -/
def Call.isPushNewJob : Call → Bool
  | .pushNewJob _ _ => true
  | _ => false

/-! ## A concrete server -/

/-- A block template with a header and a seed. -/
def sampleTemplate : BlockTemplate :=
  ⟨"0xheader", "0xseed", some ⟨"pending"⟩⟩

/-- An address check for the concrete server: `0x` and forty hexadecimal
digits in lower case. -/
def sampleIsValidHexAddress (a : String) : Bool :=
  match a.data with
  | '0' :: 'x' :: rest => rest.length == 40 && rest.all isLowerHexDigit
  | _ => false

/-- Collaborators with fixed answers. The world is the clock in milliseconds;
no call moves it. -/
def sampleExt (exist validShare allowed sick : Bool) (t : Option BlockTemplate) :
    Collaborators Nat where
  unicodeToLower := fun c => c
  IsValidHexAddress := sampleIsValidHexAddress
  TargetHexToDiff := fun _ => 4000000000
  GetTargetHex := fun _ => "0x0000000112e0be82"
  MakeTimestamp := fun w => (w, w)
  ApplyLoginPolicy := fun w _ _ => (allowed, w)
  ApplyMalformedPolicy := fun w _ => (true, w)
  ApplySharePolicy := fun w _ _ => (allowed, w)
  processShare := fun w _ _ _ _ _ _ => ((exist, validShare), w)
  currentBlockTemplate := fun _ => t
  isSick := fun _ => sick
  pushNewJob := fun w _ _ => (none, w)

/-- A server over `sampleExt` with retargeting switched on or off. -/
def sampleServer (enabled exist validShare allowed sick : Bool) (t : Option BlockTemplate) :
    ProxyServer Nat where
  config := ⟨⟨⟨enabled, 40, 20⟩⟩⟩
  diff := "0x0000000112e0be82"
  ext := sampleExt exist validShare allowed sick t

/-- A session that has not logged in. -/
def freshSession : Session :=
  ⟨"", "", "10.0.0.7:4444", "", 0⟩

/-- A session that has logged in, with the time of its last share. -/
def minerSession (lastShareTime : Int) : Session :=
  ⟨"0xabcdef0123456789abcdef0123456789abcdef01", "rig1", "10.0.0.7:4444",
    "0x0000000112e0be82", lastShareTime⟩

/-- A state with an empty registry at time `now`. -/
def freshState (now : Nat) : State Nat :=
  ⟨now, [], fun _ => freshSession, []⟩

/-- A state at time `now` in which session `0` is registered. -/
def minerState (now : Nat) (lastShareTime : Int) : State Nat :=
  ⟨now, [0], fun _ => minerSession lastShareTime, []⟩

/-- A nonce that matches `noncePattern`. -/
def sampleNonce : String := "0x0000000000000000"

/-- A digest that matches `hashPattern`. -/
def sampleHash : String :=
  "0xffffffffffffffffffffffffffffffffffffffffffffffffffffffffffffffff"

/-- A digest with upper-case digits, which `hashPattern` rejects. -/
def upperCaseHash : String :=
  "0xAA00000000000000000000000000000000000000000000000000000000000000"

/-- Collaborators whose world is the malformed-input counter of the policy
engine: `ApplyMalformedPolicy` adds one to it and no other call moves it. The
share engine would accept every share. -/
def countingExt : Collaborators Nat where
  unicodeToLower := fun c => c
  IsValidHexAddress := sampleIsValidHexAddress
  TargetHexToDiff := fun _ => 4000000000
  GetTargetHex := fun _ => "0x0000000112e0be82"
  MakeTimestamp := fun w => (5000, w)
  ApplyLoginPolicy := fun w _ _ => (true, w)
  ApplyMalformedPolicy := fun w _ => (true, w + 1)
  ApplySharePolicy := fun w _ _ => (true, w)
  processShare := fun w _ _ _ _ _ _ => ((false, true), w)
  currentBlockTemplate := fun _ => some sampleTemplate
  isSick := fun _ => false
  pushNewJob := fun w _ _ => (none, w)

/-- A server over `countingExt`, with retargeting off. -/
def countingServer : ProxyServer Nat where
  config := ⟨⟨⟨false, 40, 20⟩⟩⟩
  diff := "0x0000000112e0be82"
  ext := countingExt

/-- A run on a fresh connection: a submit before any login, a login without
parameters, the login of the scenario, and a well-formed submit. -/
def sampleRequests : List Request :=
  [.submit 0 "rig1" [sampleNonce, sampleHash, sampleHash],
    .login 0 [] "rig1",
    .login 0 ["0xABCDEF0123456789ABCDEF0123456789ABCDEF01"] "rig1",
    .submit 0 "rig1" [sampleNonce, sampleHash, sampleHash]]

/-- The state of `handleSubmitRPC` after the share engine and the share policy
have answered, `validShare` being the flag handed to the policy and `w₂` the
world the policy left. -/
def afterShare (s : ProxyServer W) (σ : State W) (cs : SessionRef) (login id : String)
    (params : List String) (validShare : Bool) (w₂ : W) : State W :=
  { world := w₂, sessions := σ.sessions, mem := σ.mem,
    calls := σ.calls ++
      [.processShare login (workerOrDefault id) (σ.mem cs).ip
          (toInt64 (s.ext.TargetHexToDiff (σ.mem cs).diff))
          (s.ext.currentBlockTemplate σ.world) params,
        .ApplySharePolicy (σ.mem cs).ip validShare] }

/-- The state of `handleSubmitRPC` on the accepted path, after the share was
logged as valid: the share engine answered `(false, true)` and the share policy
allowed it, leaving the world `w₂`. -/
def acceptedState (s : ProxyServer W) (σ : State W) (cs : SessionRef) (login id : String)
    (params : List String) (w₂ : W) : State W :=
  Printf (Printf (afterShare s σ cs login id params true w₂) .Info
      "Valid share from %s.%s@%s"
      [.str login, .str (workerOrDefault id), .str (σ.mem cs).ip]) .ShareLog
    "Valid share from %s.%s@%s"
    [.str login, .str (workerOrDefault id), .str (σ.mem cs).ip]

/-- The factor the retarget step picks for an interval of `d` milliseconds. -/
def factorFor (cfg : DynamicDifficulty) (d : Int) : Factor :=
  if Int.tdiv (60 * 1000) d > cfg.MaxSubmitRate then Factor.up
  else if Int.tdiv (60 * 1000) d < cfg.MinSubmitRate then Factor.down
  else Factor.same

/-! ## A concrete server with a target encoding -/

/-- A hexadecimal digit in lower case. -/
def hexDigit (n : Nat) : Char :=
  if n < 10 then Char.ofNat (48 + n) else Char.ofNat (87 + n)

/-- The hexadecimal digits of `n` in front of `acc`, with `fuel` at least the
number of digits. -/
def hexDigitsAux : Nat → Nat → List Char → List Char
  | 0, _, acc => acc
  | fuel + 1, n, acc => if n = 0 then acc else hexDigitsAux fuel (n / 16) (hexDigit (n % 16) :: acc)

/-- The bytes of `n` in hexadecimal, most significant first. -/
def hexBytes (n : Nat) : List Char :=
  if (hexDigitsAux n n []).length % 2 = 1 then '0' :: hexDigitsAux n n []
  else hexDigitsAux n n []

/-- The value of a hexadecimal digit. -/
def hexValue (c : Char) : Nat :=
  if 48 ≤ c.toNat ∧ c.toNat ≤ 57 then c.toNat - 48
  else if 97 ≤ c.toNat ∧ c.toNat ≤ 102 then c.toNat - 87
  else 0

/-- A target encoding for the concrete server: the target of a difficulty is
`2^256` divided by it, written as `0x` and its bytes in hexadecimal. -/
def sampleGetTargetHex (diff : Int) : String :=
  String.mk ('0' :: 'x' :: hexBytes ((2 : Int) ^ 256 / diff).natAbs)

/-- The decoding that goes with `sampleGetTargetHex`: `2^256` divided by the
target. -/
def sampleTargetHexToDiff (target : String) : Int :=
  match target.data with
  | '0' :: 'x' :: digits => (2 : Int) ^ 256 / (digits.foldl (fun a c => a * 16 + hexValue c) 0 : Nat)
  | _ => 0

/-- Collaborators that accept every share as new, with the target encoding
above. The world is the clock in milliseconds; no call moves it. -/
def vardiffExt (validShare allowed : Bool) (t : Option BlockTemplate) : Collaborators Nat where
  unicodeToLower := fun c => c
  IsValidHexAddress := sampleIsValidHexAddress
  TargetHexToDiff := sampleTargetHexToDiff
  GetTargetHex := sampleGetTargetHex
  MakeTimestamp := fun w => (w, w)
  ApplyLoginPolicy := fun w _ _ => (allowed, w)
  ApplyMalformedPolicy := fun w _ => (true, w)
  ApplySharePolicy := fun w _ _ => (allowed, w)
  processShare := fun w _ _ _ _ _ _ => ((false, validShare), w)
  currentBlockTemplate := fun _ => t
  isSick := fun _ => false
  pushNewJob := fun w _ _ => (none, w)

/-- A server over `vardiffExt` with retargeting on and the thresholds
`MaxSubmitRate = 40` and `MinSubmitRate = 20`. -/
def vardiffServer (t : Option BlockTemplate) : ProxyServer Nat where
  config := ⟨⟨⟨true, 40, 20⟩⟩⟩
  diff := sampleGetTargetHex 4000000000
  ext := vardiffExt true true t

/-- A state at time `now` in which session `0` is registered with the
difficulty `diff` and the time of its last share. -/
def vardiffState (now : Nat) (diff : Int) (lastShareTime : Int) : State Nat :=
  ⟨now, [0], fun _ => ⟨"0xabcdef0123456789abcdef0123456789abcdef01", "rig1", "10.0.0.7:4444",
    sampleGetTargetHex diff, lastShareTime⟩, []⟩

/-! ## Unfolding lemmas for `handleSubmitRPC` -/

/-- On a well-formed submit the handler is the resolution table applied to the
answers of the share engine and of the share policy. -/
theorem handleSubmitRPC_wellFormed (s : ProxyServer W) (σ : State W) (cs : SessionRef)
    (login id nonce mix result : String) (exist valid allowed : Bool) (w₁ w₂ : W)
    (hnonce : noncePattern nonce = true) (hmix : hashPattern mix = true)
    (hresult : hashPattern result = true)
    (hshare : s.ext.processShare σ.world login (workerOrDefault id)
      (σ.mem cs).ip (toInt64 (s.ext.TargetHexToDiff (σ.mem cs).diff))
      (s.ext.currentBlockTemplate σ.world) [nonce, mix, result] = ((exist, valid), w₁))
    (hpolicy : s.ext.ApplySharePolicy w₁ (σ.mem cs).ip (!exist && valid) = (allowed, w₂)) :
    handleSubmitRPC s σ cs login id [nonce, mix, result] =
      if exist then
        (.ret (false, some ⟨22, "Duplicate share"⟩),
          Printf (Printf (afterShare s σ cs login id [nonce, mix, result] false w₂) .Error
              "Duplicate share from %s@%s %v"
              [.str login, .str (σ.mem cs).ip, .strs [nonce, mix, result]]) .ShareLog
            "Duplicate share from %s@%s %v"
            [.str login, .str (σ.mem cs).ip, .strs [nonce, mix, result]])
      else if !valid then
        (.ret (false, if !allowed then some ⟨23, "Invalid share"⟩ else none),
          Printf (Printf (afterShare s σ cs login id [nonce, mix, result] false w₂) .Error
              "Invalid share from %s.%s@%s"
              [.str login, .str (workerOrDefault id), .str (σ.mem cs).ip]) .ShareLog
            "Invalid share from %s.%s@%s"
            [.str login, .str (workerOrDefault id), .str (σ.mem cs).ip])
      else
        let σ₃ := Printf (Printf (afterShare s σ cs login id [nonce, mix, result] true w₂) .Info
              "Valid share from %s.%s@%s"
              [.str login, .str (workerOrDefault id), .str (σ.mem cs).ip]) .ShareLog
            "Valid share from %s.%s@%s"
            [.str login, .str (workerOrDefault id), .str (σ.mem cs).ip]
        if !allowed then
          (.ret (true, some ⟨-1, "High rate of invalid shares"⟩), σ₃)
        else if s.config.Proxy.DynamicDifficulty.Enabled && (σ.mem cs).lastShareTime != 0 then
          afterRetarget s cs (retarget s σ₃ cs login (workerOrDefault id)
            (s.ext.currentBlockTemplate σ.world))
        else
          recordShareTime s σ₃ cs := by
  cases exist <;> cases valid <;> cases allowed <;>
    simp_all [handleSubmitRPC, processShare, ApplySharePolicy, Printf, State.record, afterShare]

/-- The reply of `recordShareTime` is the acknowledgement. -/
theorem recordShareTime_reply (s : ProxyServer W) (σ : State W) (cs : SessionRef) :
    (recordShareTime s σ cs).1 = .ret (true, none) := rfl

/-- After the retarget step the handler either passes on the panic of the step
or acknowledges the share. -/
theorem afterRetarget_reply (s : ProxyServer W) (cs : SessionRef)
    (x : Outcome Unit × State W) :
    (afterRetarget s cs x).1 = .ret (true, none) ∨ ∃ e, (afterRetarget s cs x).1 = .panic e := by
  rcases x with ⟨_ | e, σ₄⟩
  · exact Or.inl rfl
  · exact Or.inr ⟨e, rfl⟩

/-- The retarget step calls neither the malformed-input counter, nor the share
engine, nor the share policy. -/
theorem retarget_calls (s : ProxyServer W) (σ : State W) (cs : SessionRef) (login id : String)
    (t : Option BlockTemplate) :
    (retarget s σ cs login id t).2.calls.countP Call.isApplyMalformedPolicy
        = σ.calls.countP Call.isApplyMalformedPolicy ∧
      (retarget s σ cs login id t).2.calls.countP Call.isProcessShare
        = σ.calls.countP Call.isProcessShare ∧
      (retarget s σ cs login id t).2.calls.countP Call.isApplySharePolicy
        = σ.calls.countP Call.isApplySharePolicy := by
  unfold retarget
  simp only [MakeTimestamp, pushNewJob, Printf, State.record, State.store]
  split_ifs <;> (try split) <;> (try split) <;>
    simp [List.countP_append, List.countP_cons, Call.isApplyMalformedPolicy,
      Call.isProcessShare, Call.isApplySharePolicy]

/-- Storing the time stamp calls neither the malformed-input counter, nor the
share engine, nor the share policy. -/
theorem afterRetarget_calls (s : ProxyServer W) (cs : SessionRef)
    (x : Outcome Unit × State W) :
    (afterRetarget s cs x).2.calls.countP Call.isApplyMalformedPolicy
        = x.2.calls.countP Call.isApplyMalformedPolicy ∧
      (afterRetarget s cs x).2.calls.countP Call.isProcessShare
        = x.2.calls.countP Call.isProcessShare ∧
      (afterRetarget s cs x).2.calls.countP Call.isApplySharePolicy
        = x.2.calls.countP Call.isApplySharePolicy := by
  rcases x with ⟨_ | e, σ₄⟩
  · simp [afterRetarget, recordShareTime, MakeTimestamp, State.store, List.countP_append,
      Call.isApplyMalformedPolicy, Call.isProcessShare, Call.isApplySharePolicy]
  · exact ⟨rfl, rfl, rfl⟩

/-! ## Submit: duplicates, the resolution table, arity and patterns -/

/-- C1. Duplicate dominates validity: on a well-formed submit for which the
share engine reports the share as already seen, `handleSubmitRPC` replies
`(false, 22 "Duplicate share")` whatever the validity flag and the verdict of
the share policy are; the sessions (so the difficulty and the last share time of
`cs`) and the registry are unchanged and no job is pushed. -/
theorem handleSubmitRPC_duplicate_dominates (s : ProxyServer W) (σ : State W)
    (cs : SessionRef) (login id nonce mix result : String) (valid allowed : Bool) (w₁ w₂ : W)
    (hnonce : noncePattern nonce = true) (hmix : hashPattern mix = true)
    (hresult : hashPattern result = true)
    (hshare : s.ext.processShare σ.world login (workerOrDefault id)
      (σ.mem cs).ip (toInt64 (s.ext.TargetHexToDiff (σ.mem cs).diff))
      (s.ext.currentBlockTemplate σ.world) [nonce, mix, result] = ((true, valid), w₁))
    (hpolicy : s.ext.ApplySharePolicy w₁ (σ.mem cs).ip (!true && valid) = (allowed, w₂)) :
    (handleSubmitRPC s σ cs login id [nonce, mix, result]).1
        = .ret (false, some ⟨22, "Duplicate share"⟩) ∧
      (handleSubmitRPC s σ cs login id [nonce, mix, result]).2.mem = σ.mem ∧
      ((handleSubmitRPC s σ cs login id [nonce, mix, result]).2.mem cs).diff
        = (σ.mem cs).diff ∧
      ((handleSubmitRPC s σ cs login id [nonce, mix, result]).2.mem cs).lastShareTime
        = (σ.mem cs).lastShareTime ∧
      (handleSubmitRPC s σ cs login id [nonce, mix, result]).2.sessions = σ.sessions ∧
      (handleSubmitRPC s σ cs login id [nonce, mix, result]).2.calls.countP Call.isPushNewJob
        = σ.calls.countP Call.isPushNewJob ∧
      (handleSubmitRPC s σ cs login id [nonce, mix, result]).2.calls = σ.calls ++
        [.processShare login (workerOrDefault id) (σ.mem cs).ip
            (toInt64 (s.ext.TargetHexToDiff (σ.mem cs).diff))
            (s.ext.currentBlockTemplate σ.world) [nonce, mix, result],
          .ApplySharePolicy (σ.mem cs).ip false,
          .Printf .Error "Duplicate share from %s@%s %v"
            [.str login, .str (σ.mem cs).ip, .strs [nonce, mix, result]],
          .Printf .ShareLog "Duplicate share from %s@%s %v"
            [.str login, .str (σ.mem cs).ip, .strs [nonce, mix, result]]] := by
  rw [handleSubmitRPC_wellFormed s σ cs login id nonce mix result true valid allowed w₁ w₂
    hnonce hmix hresult hshare hpolicy]
  simp [Printf, State.record, afterShare, List.countP_append, List.countP_cons,
    Call.isPushNewJob]

/-- C1, at a concrete input: a duplicate that is also valid, from an address the
policy allows, with retargeting on and a previous share. -/
theorem handleSubmitRPC_duplicate_dominates_witness :
    noncePattern sampleNonce = true ∧ hashPattern sampleHash = true ∧
      (handleSubmitRPC (sampleServer true true true true false (some sampleTemplate))
          (minerState 5000 3000) 0 "0xabcdef0123456789abcdef0123456789abcdef01" "rig1"
          [sampleNonce, sampleHash, sampleHash]).1
        = .ret (false, some ⟨22, "Duplicate share"⟩) :=
  ⟨by decide, by decide,
    (handleSubmitRPC_duplicate_dominates
      (sampleServer true true true true false (some sampleTemplate)) (minerState 5000 3000) 0
      "0xabcdef0123456789abcdef0123456789abcdef01" "rig1" sampleNonce sampleHash sampleHash
      true true 5000 5000 (by decide) (by decide) (by decide) rfl rfl).1⟩

/-- C2. The resolution table for shares that are not duplicates: on a
well-formed submit for which the share engine answers `(false, valid)` and the
share policy answers `allowed`, the reply is `(false, 23 "Invalid share")` for
an invalid share the policy denies, `(false, nil)` for an invalid share the
policy allows, `(true, -1 "High rate of invalid shares")` for a valid share the
policy denies, and `(true, nil)` for a valid share the policy allows, both when
no retarget step is taken and when the step is taken and does not panic. -/
theorem handleSubmitRPC_resolution_table (s : ProxyServer W) (σ : State W)
    (cs : SessionRef) (login id nonce mix result : String) (valid allowed : Bool) (w₁ w₂ : W)
    (hnonce : noncePattern nonce = true) (hmix : hashPattern mix = true)
    (hresult : hashPattern result = true)
    (hshare : s.ext.processShare σ.world login (workerOrDefault id)
      (σ.mem cs).ip (toInt64 (s.ext.TargetHexToDiff (σ.mem cs).diff))
      (s.ext.currentBlockTemplate σ.world) [nonce, mix, result] = ((false, valid), w₁))
    (hpolicy : s.ext.ApplySharePolicy w₁ (σ.mem cs).ip (!false && valid) = (allowed, w₂)) :
    (valid = false → allowed = false →
        (handleSubmitRPC s σ cs login id [nonce, mix, result]).1
          = .ret (false, some ⟨23, "Invalid share"⟩)) ∧
      (valid = false → allowed = true →
        (handleSubmitRPC s σ cs login id [nonce, mix, result]).1 = .ret (false, none)) ∧
      (valid = true → allowed = false →
        (handleSubmitRPC s σ cs login id [nonce, mix, result]).1
          = .ret (true, some ⟨-1, "High rate of invalid shares"⟩)) ∧
      (valid = true → allowed = true →
        (s.config.Proxy.DynamicDifficulty.Enabled = false ∨ (σ.mem cs).lastShareTime = 0) →
        (handleSubmitRPC s σ cs login id [nonce, mix, result]).1 = .ret (true, none)) ∧
      (valid = true → allowed = true →
        (∀ e, (handleSubmitRPC s σ cs login id [nonce, mix, result]).1 ≠ .panic e) →
        (handleSubmitRPC s σ cs login id [nonce, mix, result]).1 = .ret (true, none)) := by
  rw [handleSubmitRPC_wellFormed s σ cs login id nonce mix result false valid allowed w₁ w₂
    hnonce hmix hresult hshare hpolicy]
  refine ⟨?_, ?_, ?_, ?_, ?_⟩
  · rintro rfl rfl
    rfl
  · rintro rfl rfl
    rfl
  · rintro rfl rfl
    rfl
  · rintro rfl rfl h
    rcases h with h | h <;> simp [h, recordShareTime_reply]
  · rintro rfl rfl h
    simp only [Bool.false_eq_true, if_false, Bool.not_false, Bool.not_true] at h ⊢
    split_ifs at h ⊢
    · rcases afterRetarget_reply s cs _ with h' | ⟨e, h'⟩
      · exact h'
      · exact absurd h' (h e)
    · rfl

/-- C2, at concrete inputs, one for each row of the table; in the last one the
retarget step is taken (retargeting on, previous share 2000 ms earlier) and
completes. -/
theorem handleSubmitRPC_resolution_table_witness :
    noncePattern sampleNonce = true ∧ hashPattern sampleHash = true ∧
      (handleSubmitRPC (sampleServer true false false false false (some sampleTemplate))
          (minerState 5000 3000) 0 "0xabcdef0123456789abcdef0123456789abcdef01" "rig1"
          [sampleNonce, sampleHash, sampleHash]).1
        = .ret (false, some ⟨23, "Invalid share"⟩) ∧
      (handleSubmitRPC (sampleServer true false false true false (some sampleTemplate))
          (minerState 5000 3000) 0 "0xabcdef0123456789abcdef0123456789abcdef01" "rig1"
          [sampleNonce, sampleHash, sampleHash]).1
        = .ret (false, none) ∧
      (handleSubmitRPC (sampleServer true false true false false (some sampleTemplate))
          (minerState 5000 3000) 0 "0xabcdef0123456789abcdef0123456789abcdef01" "rig1"
          [sampleNonce, sampleHash, sampleHash]).1
        = .ret (true, some ⟨-1, "High rate of invalid shares"⟩) ∧
      (handleSubmitRPC (sampleServer true false true true false (some sampleTemplate))
          (minerState 5000 3000) 0 "0xabcdef0123456789abcdef0123456789abcdef01" "rig1"
          [sampleNonce, sampleHash, sampleHash]).1
        = .ret (true, none) :=
  ⟨by decide, by decide,
    (handleSubmitRPC_resolution_table
      (sampleServer true false false false false (some sampleTemplate)) (minerState 5000 3000) 0
      "0xabcdef0123456789abcdef0123456789abcdef01" "rig1" sampleNonce sampleHash sampleHash
      false false 5000 5000 (by decide) (by decide) (by decide) rfl rfl).1 rfl rfl,
    (handleSubmitRPC_resolution_table
      (sampleServer true false false true false (some sampleTemplate)) (minerState 5000 3000) 0
      "0xabcdef0123456789abcdef0123456789abcdef01" "rig1" sampleNonce sampleHash sampleHash
      false true 5000 5000 (by decide) (by decide) (by decide) rfl rfl).2.1 rfl rfl,
    (handleSubmitRPC_resolution_table
      (sampleServer true false true false false (some sampleTemplate)) (minerState 5000 3000) 0
      "0xabcdef0123456789abcdef0123456789abcdef01" "rig1" sampleNonce sampleHash sampleHash
      true false 5000 5000 (by decide) (by decide) (by decide) rfl rfl).2.2.1 rfl rfl,
    (handleSubmitRPC_resolution_table
      (sampleServer true false true true false (some sampleTemplate)) (minerState 5000 3000) 0
      "0xabcdef0123456789abcdef0123456789abcdef01" "rig1" sampleNonce sampleHash sampleHash
      true true 5000 5000 (by decide) (by decide) (by decide) rfl rfl).2.2.2.2 rfl rfl
      (fun e h => by
        have h0 : (handleSubmitRPC (sampleServer true false true true false (some sampleTemplate))
            (minerState 5000 3000) 0 "0xabcdef0123456789abcdef0123456789abcdef01" "rig1"
            [sampleNonce, sampleHash, sampleHash]).1 = .ret (true, none) := by decide
        rw [h0] at h
        cases h)⟩

/-- C3. A submit whose parameter list does not have exactly three elements is
answered `(false, -1 "Invalid params")`; the malformed-input counter is called
exactly once, with the address of the session, and neither the share engine nor
the share policy is called; sessions and registry are unchanged. -/
theorem handleSubmitRPC_wrong_arity (s : ProxyServer W) (σ : State W) (cs : SessionRef)
    (login id : String) (params : List String) (hlen : params.length ≠ 3) :
    (handleSubmitRPC s σ cs login id params).1 = .ret (false, some ⟨-1, "Invalid params"⟩) ∧
      (handleSubmitRPC s σ cs login id params).2.calls = σ.calls ++
        [.ApplyMalformedPolicy (σ.mem cs).ip,
          .Printf .Error "Malformed params from %s@%s %v"
            [.str login, .str (σ.mem cs).ip, .strs params]] ∧
      (handleSubmitRPC s σ cs login id params).2.calls.countP Call.isApplyMalformedPolicy
        = σ.calls.countP Call.isApplyMalformedPolicy + 1 ∧
      (handleSubmitRPC s σ cs login id params).2.calls.countP Call.isProcessShare
        = σ.calls.countP Call.isProcessShare ∧
      (handleSubmitRPC s σ cs login id params).2.calls.countP Call.isApplySharePolicy
        = σ.calls.countP Call.isApplySharePolicy ∧
      (handleSubmitRPC s σ cs login id params).2.world
        = (s.ext.ApplyMalformedPolicy σ.world (σ.mem cs).ip).2 ∧
      (handleSubmitRPC s σ cs login id params).2.mem = σ.mem ∧
      (handleSubmitRPC s σ cs login id params).2.sessions = σ.sessions := by
  simp [handleSubmitRPC, hlen, ApplyMalformedPolicy, Printf, State.record, List.countP_append,
    List.countP_cons, Call.isApplyMalformedPolicy, Call.isProcessShare,
    Call.isApplySharePolicy]

/-- C3, at concrete inputs: the empty list and a list of four elements. -/
theorem handleSubmitRPC_wrong_arity_witness :
    ([] : List String).length ≠ 3 ∧
      [sampleNonce, sampleHash, sampleHash, sampleHash].length ≠ 3 ∧
      (handleSubmitRPC (sampleServer true false true true false (some sampleTemplate))
          (minerState 5000 3000) 0 "0xabcdef0123456789abcdef0123456789abcdef01" "rig1" []).1
        = .ret (false, some ⟨-1, "Invalid params"⟩) ∧
      (handleSubmitRPC (sampleServer true false true true false (some sampleTemplate))
          (minerState 5000 3000) 0 "0xabcdef0123456789abcdef0123456789abcdef01" "rig1"
          [sampleNonce, sampleHash, sampleHash, sampleHash]).1
        = .ret (false, some ⟨-1, "Invalid params"⟩) :=
  ⟨by decide, by decide,
    (handleSubmitRPC_wrong_arity
      (sampleServer true false true true false (some sampleTemplate)) (minerState 5000 3000) 0
      "0xabcdef0123456789abcdef0123456789abcdef01" "rig1" [] (by decide)).1,
    (handleSubmitRPC_wrong_arity
      (sampleServer true false true true false (some sampleTemplate)) (minerState 5000 3000) 0
      "0xabcdef0123456789abcdef0123456789abcdef01" "rig1"
      [sampleNonce, sampleHash, sampleHash, sampleHash] (by decide)).1⟩

/-- On a well-formed submit the reply is never the malformed-PoW error and the
malformed-input counter is not called. -/
theorem handleSubmitRPC_wellFormed_not_malformed (s : ProxyServer W) (σ : State W)
    (cs : SessionRef) (login id nonce mix result : String)
    (hnonce : noncePattern nonce = true) (hmix : hashPattern mix = true)
    (hresult : hashPattern result = true) :
    (handleSubmitRPC s σ cs login id [nonce, mix, result]).1
        ≠ .ret (false, some ⟨-1, "Malformed PoW result"⟩) ∧
      (handleSubmitRPC s σ cs login id [nonce, mix, result]).2.calls.countP
          Call.isApplyMalformedPolicy
        = σ.calls.countP Call.isApplyMalformedPolicy := by
  have key : ∀ (exist valid allowed : Bool) (w₁ w₂ : W),
      s.ext.processShare σ.world login (workerOrDefault id)
        (σ.mem cs).ip (toInt64 (s.ext.TargetHexToDiff (σ.mem cs).diff))
        (s.ext.currentBlockTemplate σ.world) [nonce, mix, result] = ((exist, valid), w₁) →
      s.ext.ApplySharePolicy w₁ (σ.mem cs).ip (!exist && valid) = (allowed, w₂) →
      (handleSubmitRPC s σ cs login id [nonce, mix, result]).1
          ≠ .ret (false, some ⟨-1, "Malformed PoW result"⟩) ∧
        (handleSubmitRPC s σ cs login id [nonce, mix, result]).2.calls.countP
            Call.isApplyMalformedPolicy
          = σ.calls.countP Call.isApplyMalformedPolicy := by
    intro exist valid allowed w₁ w₂ hshare hpolicy
    rw [handleSubmitRPC_wellFormed s σ cs login id nonce mix result exist valid allowed w₁ w₂
      hnonce hmix hresult hshare hpolicy]
    rcases exist with _ | _
    · rcases valid with _ | _
      · rcases allowed with _ | _ <;>
          simp [Printf, State.record, afterShare, List.countP_append, List.countP_cons,
            Call.isApplyMalformedPolicy]
      · rcases allowed with _ | _
        · simp [Printf, State.record, afterShare, List.countP_append, List.countP_cons,
            Call.isApplyMalformedPolicy]
        · simp only [Bool.false_eq_true, if_false, Bool.not_true]
          split_ifs
          · constructor
            · generalize retarget s _ cs login (workerOrDefault id)
                (s.ext.currentBlockTemplate σ.world) = x
              rcases afterRetarget_reply s cs x with h | ⟨e, h⟩ <;> simp [h]
            · rw [(afterRetarget_calls s cs _).1, (retarget_calls s _ cs login _ _).1]
              simp [Printf, State.record, afterShare, List.countP_append, List.countP_cons,
                Call.isApplyMalformedPolicy]
          · constructor
            · simp [recordShareTime_reply]
            · simp [recordShareTime, MakeTimestamp, State.store, Printf, State.record,
                afterShare, List.countP_append, List.countP_cons, Call.isApplyMalformedPolicy]
    · simp [Printf, State.record, afterShare, List.countP_append, List.countP_cons,
        Call.isApplyMalformedPolicy]
  exact key _ _ _ _ _ rfl rfl

/-- C4. A three-element submit in which the nonce or one of the two digests
does not match its pattern is answered `(false, -1 "Malformed PoW result")`; the
malformed-input counter is called exactly once, with the address of the session,
and the world of the collaborators afterwards is the one that this one call of
`ApplyMalformedPolicy` leaves; the share engine and the share policy are not
called, so the reply is the same for every share engine and share policy, and
sessions and registry are unchanged. Conversely a submit whose three fields match their patterns is
never answered with that error and does not touch the malformed-input
counter. -/
theorem handleSubmitRPC_malformed_pow (s : ProxyServer W) (σ : State W) (cs : SessionRef)
    (login id nonce mix result : String) :
    ((noncePattern nonce = false ∨ hashPattern mix = false ∨ hashPattern result = false) →
      (handleSubmitRPC s σ cs login id [nonce, mix, result]).1
          = .ret (false, some ⟨-1, "Malformed PoW result"⟩) ∧
        (handleSubmitRPC s σ cs login id [nonce, mix, result]).2.calls = σ.calls ++
          [.ApplyMalformedPolicy (σ.mem cs).ip,
            .Printf .Error "Malformed PoW result from %s@%s %v"
              [.str login, .str (σ.mem cs).ip, .strs [nonce, mix, result]]] ∧
        (handleSubmitRPC s σ cs login id [nonce, mix, result]).2.calls.countP
            Call.isApplyMalformedPolicy
          = σ.calls.countP Call.isApplyMalformedPolicy + 1 ∧
        (handleSubmitRPC s σ cs login id [nonce, mix, result]).2.calls.countP
            Call.isProcessShare
          = σ.calls.countP Call.isProcessShare ∧
        (handleSubmitRPC s σ cs login id [nonce, mix, result]).2.calls.countP
            Call.isApplySharePolicy
          = σ.calls.countP Call.isApplySharePolicy ∧
        (handleSubmitRPC s σ cs login id [nonce, mix, result]).2.world
          = (s.ext.ApplyMalformedPolicy σ.world (σ.mem cs).ip).2 ∧
        (handleSubmitRPC s σ cs login id [nonce, mix, result]).2.mem = σ.mem ∧
        (handleSubmitRPC s σ cs login id [nonce, mix, result]).2.sessions = σ.sessions ∧
        ∀ (share : W → String → String → String → Int → Option BlockTemplate →
            List String → (Bool × Bool) × W) (policy : W → String → Bool → Bool × W),
          handleSubmitRPC
              { s with ext := { s.ext with processShare := share, ApplySharePolicy := policy } }
              σ cs login id [nonce, mix, result]
            = handleSubmitRPC s σ cs login id [nonce, mix, result]) ∧
    ((noncePattern nonce = true ∧ hashPattern mix = true ∧ hashPattern result = true) →
      (handleSubmitRPC s σ cs login id [nonce, mix, result]).1
          ≠ .ret (false, some ⟨-1, "Malformed PoW result"⟩) ∧
        (handleSubmitRPC s σ cs login id [nonce, mix, result]).2.calls.countP
            Call.isApplyMalformedPolicy
          = σ.calls.countP Call.isApplyMalformedPolicy) := by
  constructor
  · intro h
    have hbad : (!noncePattern nonce || !hashPattern mix || !hashPattern result) = true := by
      rcases h with h | h | h <;> simp [h]
    simp [handleSubmitRPC, hbad, ApplyMalformedPolicy, Printf, State.record,
      List.countP_append, List.countP_cons, Call.isApplyMalformedPolicy, Call.isProcessShare,
      Call.isApplySharePolicy]
  · rintro ⟨hn, hm, hr⟩
    exact handleSubmitRPC_wellFormed_not_malformed s σ cs login id nonce mix result hn hm hr

/-- C4, at the submit of the scenario, whose mix digest has upper-case digits,
for a share engine that would have accepted the share; and at a well-formed
submit. On the server whose world is the malformed-input counter, started at 0,
the counter is 1 after the malformed submit and 0 after the well-formed one. -/
theorem handleSubmitRPC_malformed_pow_witness :
    hashPattern upperCaseHash = false ∧
      (handleSubmitRPC (sampleServer true false true true false (some sampleTemplate))
          (minerState 5000 3000) 0 "0xabcdef0123456789abcdef0123456789abcdef01" "rig1"
          ["0x0000000000000000", upperCaseHash, sampleHash]).1
        = .ret (false, some ⟨-1, "Malformed PoW result"⟩) ∧
      (handleSubmitRPC countingServer (minerState 0 3000) 0
          "0xabcdef0123456789abcdef0123456789abcdef01" "rig1"
          ["0x0000000000000000", upperCaseHash, sampleHash]).2.world = 1 ∧
      (handleSubmitRPC countingServer (minerState 0 3000) 0
          "0xabcdef0123456789abcdef0123456789abcdef01" "rig1"
          [sampleNonce, sampleHash, sampleHash]).2.world = 0 ∧
      (noncePattern sampleNonce = true ∧ hashPattern sampleHash = true ∧
        hashPattern sampleHash = true) ∧
      (handleSubmitRPC (sampleServer true false true true false (some sampleTemplate))
          (minerState 5000 3000) 0 "0xabcdef0123456789abcdef0123456789abcdef01" "rig1"
          [sampleNonce, sampleHash, sampleHash]).1
        ≠ .ret (false, some ⟨-1, "Malformed PoW result"⟩) :=
  ⟨by decide,
    ((handleSubmitRPC_malformed_pow
      (sampleServer true false true true false (some sampleTemplate)) (minerState 5000 3000) 0
      "0xabcdef0123456789abcdef0123456789abcdef01" "rig1" "0x0000000000000000" upperCaseHash
      sampleHash).1 (Or.inr (Or.inl (by decide)))).1,
    ((handleSubmitRPC_malformed_pow countingServer (minerState 0 3000) 0
      "0xabcdef0123456789abcdef0123456789abcdef01" "rig1" "0x0000000000000000" upperCaseHash
      sampleHash).1 (Or.inr (Or.inl (by decide)))).2.2.2.2.2.1,
    by decide,
    ⟨by decide, by decide, by decide⟩,
    ((handleSubmitRPC_malformed_pow
      (sampleServer true false true true false (some sampleTemplate)) (minerState 5000 3000) 0
      "0xabcdef0123456789abcdef0123456789abcdef01" "rig1" sampleNonce sampleHash
      sampleHash).2 ⟨by decide, by decide, by decide⟩).1⟩

/-! ## Login -/

/-- C5. The login succeeds exactly when the parameter list is not empty, the
lower-cased first parameter passes `IsValidHexAddress` and `ApplyLoginPolicy`
allows that login from the address of the session. An empty list is answered
`-1 "Invalid params"` and a malformed address `-1 "Invalid login"`, both
without any call or change of state (the policy is not consulted); a denial by
the policy is answered `-1 "You are blacklisted"`. -/
theorem handleLoginRPC_criterion (s : ProxyServer W) (σ : State W) (cs : SessionRef)
    (params : List String) (id : String) :
    ((handleLoginRPC s σ cs params id).1 = (true, none) ↔
      ∃ p0 rest, params = p0 :: rest ∧
        s.ext.IsValidHexAddress (ToLower s.ext.unicodeToLower p0) = true ∧
        (s.ext.ApplyLoginPolicy σ.world (ToLower s.ext.unicodeToLower p0)
          (σ.mem cs).ip).1 = true) ∧
    (params = [] →
      handleLoginRPC s σ cs params id = ((false, some ⟨-1, "Invalid params"⟩), σ)) ∧
    (∀ p0 rest, params = p0 :: rest →
      s.ext.IsValidHexAddress (ToLower s.ext.unicodeToLower p0) = false →
      handleLoginRPC s σ cs params id = ((false, some ⟨-1, "Invalid login"⟩), σ)) ∧
    (∀ p0 rest, params = p0 :: rest →
      s.ext.IsValidHexAddress (ToLower s.ext.unicodeToLower p0) = true →
      (s.ext.ApplyLoginPolicy σ.world (ToLower s.ext.unicodeToLower p0)
        (σ.mem cs).ip).1 = false →
      (handleLoginRPC s σ cs params id).1 = (false, some ⟨-1, "You are blacklisted"⟩) ∧
        (handleLoginRPC s σ cs params id).2.calls = σ.calls ++
          [.ApplyLoginPolicy (ToLower s.ext.unicodeToLower p0) (σ.mem cs).ip]) := by
  refine ⟨?_, ?_, ?_, ?_⟩
  · cases params with
    | nil => simp [handleLoginRPC]
    | cons p0 rest =>
      cases hv : s.ext.IsValidHexAddress (ToLower s.ext.unicodeToLower p0) <;>
        cases hp : (s.ext.ApplyLoginPolicy σ.world (ToLower s.ext.unicodeToLower p0)
          (σ.mem cs).ip).1 <;>
        simp [handleLoginRPC, ApplyLoginPolicy, hv, hp]
  · rintro rfl
    rfl
  · rintro p0 rest rfl hv
    simp [handleLoginRPC, hv]
  · rintro p0 rest rfl hv hp
    simp [handleLoginRPC, ApplyLoginPolicy, hv, hp]

/-- C5, at concrete inputs: the address of the scenario is accepted, and an
empty list, a malformed address and a denied login are rejected. -/
theorem handleLoginRPC_criterion_witness :
    (handleLoginRPC (sampleServer true false true true false none) (freshState 0) 0
        ["0xABCDEF0123456789ABCDEF0123456789ABCDEF01"] "rig1").1 = (true, none) ∧
      (handleLoginRPC (sampleServer true false true true false none) (freshState 0) 0
        [] "rig1").1 = (false, some ⟨-1, "Invalid params"⟩) ∧
      (handleLoginRPC (sampleServer true false true true false none) (freshState 0) 0
        ["abcdef"] "rig1").1 = (false, some ⟨-1, "Invalid login"⟩) ∧
      (handleLoginRPC (sampleServer true false true false false none) (freshState 0) 0
        ["0xABCDEF0123456789ABCDEF0123456789ABCDEF01"] "rig1").1
        = (false, some ⟨-1, "You are blacklisted"⟩) :=
  ⟨(handleLoginRPC_criterion (sampleServer true false true true false none) (freshState 0) 0
      ["0xABCDEF0123456789ABCDEF0123456789ABCDEF01"] "rig1").1.2
      ⟨_, _, rfl, by decide, by decide⟩,
    congrArg Prod.fst ((handleLoginRPC_criterion (sampleServer true false true true false none)
      (freshState 0) 0 [] "rig1").2.1 rfl),
    congrArg Prod.fst ((handleLoginRPC_criterion (sampleServer true false true true false none)
      (freshState 0) 0 ["abcdef"] "rig1").2.2.1 _ _ rfl (by decide)),
    ((handleLoginRPC_criterion (sampleServer true false true false false none)
      (freshState 0) 0 ["0xABCDEF0123456789ABCDEF0123456789ABCDEF01"] "rig1").2.2.2 _ _ rfl
      (by decide) (by decide)).1⟩

/-- C6. After a successful login the login of the session is the lower-case
form of the first parameter, its worker id is the request id, its difficulty is
the default difficulty of the server, its last share time and its address are
unchanged, the session is in the registry, and no other session is written. -/
theorem handleLoginRPC_post_state (s : ProxyServer W) (σ : State W) (cs : SessionRef)
    (params : List String) (id : String)
    (hok : (handleLoginRPC s σ cs params id).1 = (true, none)) :
    some ((handleLoginRPC s σ cs params id).2.mem cs).login
        = params.head?.map (ToLower s.ext.unicodeToLower) ∧
      ((handleLoginRPC s σ cs params id).2.mem cs).id = id ∧
      ((handleLoginRPC s σ cs params id).2.mem cs).diff = s.diff ∧
      ((handleLoginRPC s σ cs params id).2.mem cs).lastShareTime = (σ.mem cs).lastShareTime ∧
      ((handleLoginRPC s σ cs params id).2.mem cs).ip = (σ.mem cs).ip ∧
      cs ∈ (handleLoginRPC s σ cs params id).2.sessions ∧
      (handleLoginRPC s σ cs params id).2.sessions.contains cs = true ∧
      ∀ r, r ≠ cs → (handleLoginRPC s σ cs params id).2.mem r = σ.mem r := by
  cases params with
  | nil => simp [handleLoginRPC] at hok
  | cons p0 rest =>
    cases hv : s.ext.IsValidHexAddress (ToLower s.ext.unicodeToLower p0) <;>
      cases hp : (s.ext.ApplyLoginPolicy σ.world (ToLower s.ext.unicodeToLower p0)
        (σ.mem cs).ip).1 <;>
      simp [handleLoginRPC, ApplyLoginPolicy, hv, hp] at hok
    simp only [handleLoginRPC, ApplyLoginPolicy, hv, hp, registerSession, Printf, State.record,
      State.store]
    by_cases hmem : cs ∈ σ.sessions <;> simp [hmem]
    · intro r hr
      simp [hr]
    · intro r hr
      simp [hr]

/-- C6, at the login of the scenario: the stored login is the all-lower-case
form of the address. -/
theorem handleLoginRPC_post_state_witness :
    (handleLoginRPC (sampleServer true false true true false none) (freshState 0) 0
        ["0xABCDEF0123456789ABCDEF0123456789ABCDEF01"] "rig1").1 = (true, none) ∧
      ToLower (fun c => c) "0xABCDEF0123456789ABCDEF0123456789ABCDEF01"
        = "0xabcdef0123456789abcdef0123456789abcdef01" ∧
      some ((handleLoginRPC (sampleServer true false true true false none) (freshState 0) 0
          ["0xABCDEF0123456789ABCDEF0123456789ABCDEF01"] "rig1").2.mem 0).login
        = some (ToLower (fun c => c) "0xABCDEF0123456789ABCDEF0123456789ABCDEF01") ∧
      0 ∈ (handleLoginRPC (sampleServer true false true true false none) (freshState 0) 0
          ["0xABCDEF0123456789ABCDEF0123456789ABCDEF01"] "rig1").2.sessions :=
  ⟨by decide, by decide,
    (handleLoginRPC_post_state (sampleServer true false true true false none) (freshState 0) 0
      ["0xABCDEF0123456789ABCDEF0123456789ABCDEF01"] "rig1" (by decide)).1,
    (handleLoginRPC_post_state (sampleServer true false true true false none) (freshState 0) 0
      ["0xABCDEF0123456789ABCDEF0123456789ABCDEF01"] "rig1" (by decide)).2.2.2.2.2.1⟩

/-! ## The session-bound submit -/

/-- The session-bound submit of a session outside the registry. -/
theorem handleTCPSubmitRPC_unregistered (s : ProxyServer W) (σ : State W) (cs : SessionRef)
    (id : String) (params : List String) (h : cs ∉ σ.sessions) :
    handleTCPSubmitRPC s σ cs id params = (.ret (false, some ⟨25, "Not subscribed"⟩), σ) := by
  simp [handleTCPSubmitRPC, h]

/-- The session-bound submit of a session in the registry. -/
theorem handleTCPSubmitRPC_registered (s : ProxyServer W) (σ : State W) (cs : SessionRef)
    (id : String) (params : List String) (h : cs ∈ σ.sessions) :
    handleTCPSubmitRPC s σ cs id params = handleSubmitRPC s σ cs (σ.mem cs).login id params := by
  simp [handleTCPSubmitRPC, h]

/-- C7. For a session that is not in the registry `handleTCPSubmitRPC` answers
`(false, 25 "Not subscribed")` and leaves the state as it is: no collaborator
is called and no session is written. For a session in the registry it is
`handleSubmitRPC` with the login bound to the session. -/
theorem handleTCPSubmitRPC_gate (s : ProxyServer W) (σ : State W) (cs : SessionRef)
    (id : String) (params : List String) :
    (cs ∉ σ.sessions →
      handleTCPSubmitRPC s σ cs id params = (.ret (false, some ⟨25, "Not subscribed"⟩), σ)) ∧
    (cs ∈ σ.sessions →
      handleTCPSubmitRPC s σ cs id params = handleSubmitRPC s σ cs (σ.mem cs).login id params) := by
  exact ⟨handleTCPSubmitRPC_unregistered s σ cs id params,
    handleTCPSubmitRPC_registered s σ cs id params⟩

/-- C7, at concrete inputs: an unregistered session is turned away, a registered
one gets the answer of `handleSubmitRPC`. -/
theorem handleTCPSubmitRPC_gate_witness :
    (0 ∉ (freshState 5000).sessions ∧
      (handleTCPSubmitRPC (sampleServer true false true true false (some sampleTemplate))
        (freshState 5000) 0 "rig1" [sampleNonce, sampleHash, sampleHash]).1
        = .ret (false, some ⟨25, "Not subscribed"⟩)) ∧
    (0 ∈ (minerState 5000 3000).sessions ∧
      handleTCPSubmitRPC (sampleServer true false true true false (some sampleTemplate))
        (minerState 5000 3000) 0 "rig1" [sampleNonce, sampleHash, sampleHash]
        = handleSubmitRPC (sampleServer true false true true false (some sampleTemplate))
          (minerState 5000 3000) 0 "0xabcdef0123456789abcdef0123456789abcdef01" "rig1"
          [sampleNonce, sampleHash, sampleHash]) :=
  ⟨⟨by decide,
      congrArg Prod.fst ((handleTCPSubmitRPC_gate
        (sampleServer true false true true false (some sampleTemplate)) (freshState 5000) 0
        "rig1" [sampleNonce, sampleHash, sampleHash]).1 (by decide))⟩,
    ⟨by decide,
      (handleTCPSubmitRPC_gate
        (sampleServer true false true true false (some sampleTemplate)) (minerState 5000 3000) 0
        "rig1" [sampleNonce, sampleHash, sampleHash]).2 (by decide)⟩⟩

/-! ## GetWork -/

/-- A Go string has length zero exactly when it is the empty string. -/
theorem utf8ByteSize_eq_zero (str : String) : str.utf8ByteSize = 0 ↔ str = "" := by
  rcases str with ⟨l⟩
  cases l with
  | nil => simp [String.utf8ByteSize, String.utf8ByteSize.go]
  | cons c cs =>
    have hpos := Char.utf8Size_pos c
    have hne : (⟨c :: cs⟩ : String) ≠ "" := by
      intro h
      have := congrArg String.data h
      simp at this
    simp only [String.utf8ByteSize, String.utf8ByteSize.go, hne, iff_false]
    omega

/-- The answer of `handleGetWorkRPC` when the work is ready. -/
theorem handleGetWorkRPC_ready (s : ProxyServer W) (σ : State W) (cs : SessionRef)
    (t : BlockTemplate) (ht : s.ext.currentBlockTemplate σ.world = some t)
    (hheader : t.Header ≠ "") (hsick : s.ext.isSick σ.world = false) :
    handleGetWorkRPC s σ cs = ((some [t.Header, t.Seed, (σ.mem cs).diff], none), σ) := by
  have h : t.Header.utf8ByteSize ≠ 0 := fun h => hheader ((utf8ByteSize_eq_zero _).1 h)
  simp [handleGetWorkRPC, ht, hsick, h]

/-- The answer of `handleGetWorkRPC` when the work is not ready. -/
theorem handleGetWorkRPC_not_ready (s : ProxyServer W) (σ : State W) (cs : SessionRef)
    (h : s.ext.currentBlockTemplate σ.world = none ∨
      (∃ t, s.ext.currentBlockTemplate σ.world = some t ∧ t.Header = "") ∨
      s.ext.isSick σ.world = true) :
    handleGetWorkRPC s σ cs = ((none, some ⟨0, "Work not ready"⟩), σ) := by
  cases ht : s.ext.currentBlockTemplate σ.world with
  | none => simp [handleGetWorkRPC, ht]
  | some t =>
    rcases h with h | ⟨t', h, hh⟩ | h
    · simp [ht] at h
    · rw [ht] at h
      cases h
      have h0 : t.Header.utf8ByteSize = 0 := (utf8ByteSize_eq_zero _).2 hh
      simp [handleGetWorkRPC, ht, h0]
    · simp [handleGetWorkRPC, ht, h]

/-- The work is ready or it is not. -/
theorem ready_or_not (s : ProxyServer W) (σ : State W) :
    (∃ t, s.ext.currentBlockTemplate σ.world = some t ∧ t.Header ≠ "" ∧
      s.ext.isSick σ.world = false) ∨
    (s.ext.currentBlockTemplate σ.world = none ∨
      (∃ t, s.ext.currentBlockTemplate σ.world = some t ∧ t.Header = "") ∨
      s.ext.isSick σ.world = true) := by
  cases ht : s.ext.currentBlockTemplate σ.world with
  | none => exact Or.inr (Or.inl rfl)
  | some t =>
    by_cases hh : t.Header = ""
    · exact Or.inr (Or.inr (Or.inl ⟨t, rfl, hh⟩))
    · cases hs : s.ext.isSick σ.world
      · exact Or.inl ⟨t, rfl, hh, rfl⟩
      · exact Or.inr (Or.inr (Or.inr rfl))

/-- The handler `handleGetWorkRPC` returns the state it was given. -/
theorem handleGetWorkRPC_state (s : ProxyServer W) (σ : State W) (cs : SessionRef) :
    (handleGetWorkRPC s σ cs).2 = σ := by
  rcases ready_or_not s σ with ⟨t, ht, hh, hs⟩ | hnot
  · rw [handleGetWorkRPC_ready s σ cs t ht hh hs]
  · rw [handleGetWorkRPC_not_ready s σ cs hnot]

/-- C9. The answer of `handleGetWorkRPC` is `(nil, 0 "Work not ready")` exactly
when there is no current template, or the header of the template is empty, or
`isSick()` holds; otherwise it is the list of the header, the seed and the
difficulty of the session, without error. The state, and so the session, is
never modified. -/
theorem handleGetWorkRPC_result (s : ProxyServer W) (σ : State W) (cs : SessionRef) :
    ((handleGetWorkRPC s σ cs).1 = (none, some ⟨0, "Work not ready"⟩) ↔
      (s.ext.currentBlockTemplate σ.world = none ∨
        (∃ t, s.ext.currentBlockTemplate σ.world = some t ∧ t.Header = "") ∨
        s.ext.isSick σ.world = true)) ∧
    (∀ t, s.ext.currentBlockTemplate σ.world = some t → t.Header ≠ "" →
      s.ext.isSick σ.world = false →
      (handleGetWorkRPC s σ cs).1 = (some [t.Header, t.Seed, (σ.mem cs).diff], none)) ∧
    (handleGetWorkRPC s σ cs).2 = σ := by
  refine ⟨⟨?_, ?_⟩, ?_, ?_⟩
  · intro h
    rcases ready_or_not s σ with ⟨t, ht, hh, hs⟩ | hnot
    · rw [handleGetWorkRPC_ready s σ cs t ht hh hs] at h
      simp at h
    · exact hnot
  · intro h
    rw [handleGetWorkRPC_not_ready s σ cs h]
  · intro t ht hh hs
    rw [handleGetWorkRPC_ready s σ cs t ht hh hs]
  · exact handleGetWorkRPC_state s σ cs

/-- C9, at concrete inputs: no template, an empty header, a sick upstream, and
work that is ready. -/
theorem handleGetWorkRPC_result_witness :
    (handleGetWorkRPC (sampleServer true false true true false none)
        (minerState 5000 3000) 0).1 = (none, some ⟨0, "Work not ready"⟩) ∧
      (handleGetWorkRPC (sampleServer true false true true false (some ⟨"", "0xseed", none⟩))
        (minerState 5000 3000) 0).1 = (none, some ⟨0, "Work not ready"⟩) ∧
      (handleGetWorkRPC (sampleServer true false true true true (some sampleTemplate))
        (minerState 5000 3000) 0).1 = (none, some ⟨0, "Work not ready"⟩) ∧
      (handleGetWorkRPC (sampleServer true false true true false (some sampleTemplate))
        (minerState 5000 3000) 0).1
        = (some ["0xheader", "0xseed", "0x0000000112e0be82"], none) :=
  ⟨(handleGetWorkRPC_result (sampleServer true false true true false none)
      (minerState 5000 3000) 0).1.2 (Or.inl rfl),
    (handleGetWorkRPC_result (sampleServer true false true true false
      (some ⟨"", "0xseed", none⟩)) (minerState 5000 3000) 0).1.2 (Or.inr (Or.inl ⟨_, rfl, rfl⟩)),
    (handleGetWorkRPC_result (sampleServer true false true true true (some sampleTemplate))
      (minerState 5000 3000) 0).1.2 (Or.inr (Or.inr rfl)),
    (handleGetWorkRPC_result (sampleServer true false true true false (some sampleTemplate))
      (minerState 5000 3000) 0).2.1 sampleTemplate rfl (by decide) rfl⟩

/-- C10, as stated, fails: a session that never logged in and is not in the
registry is handed the work triple, with its unset difficulty, as soon as a
template with a header exists and the upstream is healthy. -/
theorem handleGetWorkRPC_unregistered_counterexample :
    (freshState 0).sessions = [] ∧
      (handleGetWorkRPC (sampleServer true false true true false (some sampleTemplate))
        (freshState 0) 0).1 = (some ["0xheader", "0xseed", ""], none) := by
  decide

/-- C10, amended. `handleGetWorkRPC` does not consult the registry: for a
session that is not registered it returns the work triple exactly when a
template with a non-empty header exists and the upstream is healthy, and its
answer is the same for every content of the registry. -/
theorem handleGetWorkRPC_unregistered (s : ProxyServer W) (σ : State W) (cs : SessionRef)
    (_hreg : cs ∉ σ.sessions) :
    ((∃ work, (handleGetWorkRPC s σ cs).1 = (some work, none)) ↔
      ∃ t, s.ext.currentBlockTemplate σ.world = some t ∧ t.Header ≠ "" ∧
        s.ext.isSick σ.world = false) ∧
    (∀ t, s.ext.currentBlockTemplate σ.world = some t → t.Header ≠ "" →
      s.ext.isSick σ.world = false →
      (handleGetWorkRPC s σ cs).1 = (some [t.Header, t.Seed, (σ.mem cs).diff], none)) ∧
    (∀ registry : List SessionRef,
      (handleGetWorkRPC s { σ with sessions := registry } cs).1 = (handleGetWorkRPC s σ cs).1) := by
  refine ⟨⟨?_, ?_⟩, ?_, ?_⟩
  · rintro ⟨work, h⟩
    rcases ready_or_not s σ with hready | hnot
    · exact hready
    · rw [handleGetWorkRPC_not_ready s σ cs hnot] at h
      simp at h
  · rintro ⟨t, ht, hh, hs⟩
    exact ⟨_, congrArg Prod.fst (handleGetWorkRPC_ready s σ cs t ht hh hs)⟩
  · intro t ht hh hs
    rw [handleGetWorkRPC_ready s σ cs t ht hh hs]
  · intro registry
    unfold handleGetWorkRPC
    dsimp only
    split <;> [rfl; (split_ifs <;> rfl)]

/-- C10 amended, at a concrete input: the unregistered session of the
counterexample gets the work triple. -/
theorem handleGetWorkRPC_unregistered_witness :
    0 ∉ (freshState 0).sessions ∧
      (handleGetWorkRPC (sampleServer true false true true false (some sampleTemplate))
        (freshState 0) 0).1 = (some ["0xheader", "0xseed", ""], none) :=
  ⟨by decide,
    (handleGetWorkRPC_unregistered (sampleServer true false true true false (some sampleTemplate))
      (freshState 0) 0 (by decide)).2.1 sampleTemplate rfl (by decide) rfl⟩

/-! ## The registry over sequences of requests -/

/-- The retarget step does not write the registry. -/
theorem retarget_sessions (s : ProxyServer W) (σ : State W) (cs : SessionRef)
    (login id : String) (t : Option BlockTemplate) :
    (retarget s σ cs login id t).2.sessions = σ.sessions := by
  unfold retarget
  simp only [MakeTimestamp, pushNewJob, Printf, State.record, State.store]
  split_ifs <;> (try split) <;> (try split) <;> rfl

/-- Storing the time stamp does not write the registry. -/
theorem afterRetarget_sessions (s : ProxyServer W) (cs : SessionRef)
    (x : Outcome Unit × State W) :
    (afterRetarget s cs x).2.sessions = x.2.sessions := by
  rcases x with ⟨_ | e, σ₄⟩ <;> rfl

/-- The handler `handleSubmitRPC` does not write the registry and never answers
with error code 25. -/
theorem handleSubmitRPC_frame (s : ProxyServer W) (σ : State W) (cs : SessionRef)
    (login id : String) (params : List String) :
    (handleSubmitRPC s σ cs login id params).2.sessions = σ.sessions ∧
      ∀ b e, (handleSubmitRPC s σ cs login id params).1 = .ret (b, some e) → e.Code ≠ 25 := by
  unfold handleSubmitRPC
  simp only [processShare, ApplySharePolicy, ApplyMalformedPolicy, Printf, State.record]
  split_ifs
  · refine ⟨rfl, ?_⟩
    intro b e h
    cases h
    decide
  · refine ⟨rfl, ?_⟩
    intro b e h
    cases h
    decide
  · refine ⟨rfl, ?_⟩
    intro b e h
    cases h
    decide
  · refine ⟨rfl, ?_⟩
    intro b e h
    cases h
    decide
  · refine ⟨rfl, ?_⟩
    intro b e h
    cases h
  · refine ⟨rfl, ?_⟩
    intro b e h
    cases h
    decide
  · constructor
    · rw [afterRetarget_sessions, retarget_sessions]
    · intro b e h
      generalize retarget s _ cs login (workerOrDefault id)
        (s.ext.currentBlockTemplate σ.world) = x at h
      rcases afterRetarget_reply s cs x with h' | ⟨e', h'⟩ <;> rw [h'] at h <;> cases h
  · refine ⟨rfl, ?_⟩
    intro b e h
    cases h

/-- One request changes the membership of a session in the registry exactly
when it is a successful login of that session. -/
theorem dispatch_sessions (s : ProxyServer W) (σ : State W) (cs : SessionRef) (q : Request) :
    cs ∈ (dispatch s σ q).2.sessions ↔
      cs ∈ σ.sessions ∨ isLoginSuccess cs (q, (dispatch s σ q).1) = true := by
  cases q with
  | login c params id =>
    cases params with
    | nil => simp [dispatch, handleLoginRPC, isLoginSuccess]
    | cons p0 rest =>
      cases hv : s.ext.IsValidHexAddress (ToLower s.ext.unicodeToLower p0) <;>
        cases hp : (s.ext.ApplyLoginPolicy σ.world (ToLower s.ext.unicodeToLower p0)
          (σ.mem c).ip).1 <;>
        simp [dispatch, handleLoginRPC, ApplyLoginPolicy, hv, hp, isLoginSuccess]
      simp only [registerSession, Printf, State.record, State.store]
      by_cases hmem : c ∈ σ.sessions
      · by_cases hc : c = cs
        · subst hc
          simp [hmem]
        · simp [hmem, hc]
      · by_cases hc : c = cs
        · subst hc
          simp [hmem]
        · have hc' : ¬cs = c := fun h => hc h.symm
          simp [hmem, hc, hc']
  | getWork c =>
    have h := handleGetWorkRPC_state s σ c
    simp [dispatch, isLoginSuccess, h]
  | submit c id params =>
    have h : (handleTCPSubmitRPC s σ c id params).2.sessions = σ.sessions := by
      unfold handleTCPSubmitRPC
      dsimp only
      split_ifs
      · rfl
      · exact (handleSubmitRPC_frame s σ c _ id params).1
    simp [dispatch, isLoginSuccess, h]
  | getBlockByNumber =>
    have h : (handleGetBlockByNumberRPC s σ).2 = σ := by
      unfold handleGetBlockByNumberRPC
      split <;> rfl
    simp [dispatch, isLoginSuccess, h]
  | unknown c m =>
    simp [dispatch, isLoginSuccess, handleUnknownRPC, ApplyMalformedPolicy, Printf,
      State.record]

/-- A session is in the registry after a run exactly when it was there before
or one of its logins succeeded in the run. -/
theorem run_sessions (s : ProxyServer W) (cs : SessionRef) (reqs : List Request) :
    ∀ σ : State W, cs ∈ (run s σ reqs).2.sessions ↔
      cs ∈ σ.sessions ∨ (run s σ reqs).1.any (isLoginSuccess cs) = true := by
  induction reqs with
  | nil =>
    intro σ
    simp [run]
  | cons q qs ih =>
    intro σ
    have hd := dispatch_sessions s σ cs q
    by_cases hp : (dispatch s σ q).1.isPanic = true
    · simp only [run, hp, if_true, List.any_cons, List.any_nil, Bool.or_false]
      exact hd
    · simp only [run, hp, List.any_cons, Bool.or_eq_true]
      rw [if_neg (by simp)]
      simp only [List.any_cons, Bool.or_eq_true]
      rw [ih, hd, or_assoc]

/-- In a run, a session-bound submit of a session that is registered or has
logged in before is not answered with error code 25. -/
theorem run_subscribed (s : ProxyServer W) (cs : SessionRef) (reqs : List Request) :
    ∀ (σ : State W) (pre post : List (Request × Reply)) (e : Request × Reply),
      (run s σ reqs).1 = pre ++ e :: post →
      (cs ∈ σ.sessions ∨ pre.any (isLoginSuccess cs) = true) →
      isNotSubscribed cs e = false := by
  induction reqs with
  | nil =>
    intro σ pre post e h
    simp [run] at h
  | cons q qs ih =>
    intro σ pre post e h hlogged
    have hd := dispatch_sessions s σ cs q
    have hhead : ∀ post', (q, (dispatch s σ q).1) :: post' = pre ++ e :: post →
        (pre = [] ∧ e = (q, (dispatch s σ q).1) ∧ post' = post) ∨
        ∃ pre', pre = (q, (dispatch s σ q).1) :: pre' ∧ post' = pre' ++ e :: post := by
      intro post' h
      cases pre with
      | nil =>
        simp only [List.nil_append, List.cons.injEq] at h
        exact Or.inl ⟨rfl, h.1.symm, h.2⟩
      | cons p pre' =>
        simp only [List.cons_append, List.cons.injEq] at h
        exact Or.inr ⟨pre', by rw [h.1], h.2⟩
    have hfirst : cs ∈ σ.sessions → isNotSubscribed cs (q, (dispatch s σ q).1) = false := by
      intro hmem
      cases q with
      | submit c id params =>
        by_cases hc : c = cs
        · subst hc
          simp only [dispatch, handleTCPSubmitRPC_registered s σ c id params hmem]
          have hf := (handleSubmitRPC_frame s σ c (σ.mem c).login id params).2
          rcases hr : (handleSubmitRPC s σ c (σ.mem c).login id params).1 with ⟨b, _ | err⟩ | e'
          · simp [isNotSubscribed]
          · simp [isNotSubscribed, hf b err hr]
          · simp [isNotSubscribed]
        · rcases hr : (dispatch s σ (.submit c id params)).1 with _ | _ | ⟨⟨b, _ | err⟩ | e'⟩ | _ | _ <;>
            simp [isNotSubscribed, hc]
      | login c params id => simp [dispatch, isNotSubscribed]
      | getWork c => simp [dispatch, isNotSubscribed]
      | getBlockByNumber => simp [dispatch, isNotSubscribed]
      | unknown c m => simp [dispatch, isNotSubscribed]
    by_cases hp : (dispatch s σ q).1.isPanic = true
    · simp only [run, hp, if_true] at h
      rcases hhead [] h with ⟨rfl, rfl, -⟩ | ⟨pre', -, h'⟩
      · simp only [List.any_nil, Bool.false_eq_true, or_false] at hlogged
        exact hfirst hlogged
      · simp at h'
    · simp only [run, hp] at h
      rw [if_neg (by simp)] at h
      rcases hhead _ h with ⟨rfl, rfl, -⟩ | ⟨pre', rfl, h'⟩
      · simp only [List.any_nil, Bool.false_eq_true, or_false] at hlogged
        exact hfirst hlogged
      · apply ih (dispatch s σ q).2 pre' post e h'
        simp only [List.any_cons, Bool.or_eq_true] at hlogged
        rw [hd]
        tauto

/-- C8. The registry over the operations of the dispatcher. In a run of login,
get-work, session-bound submit, get-block-by-number and unknown-method requests
that starts from an empty registry, a session is in the registry at the end
exactly when one of its logins was answered `(true, nil)`; a login that fails
leaves the registry and every session as they were; and once a login of the
session has succeeded no later session-bound submit of it is answered with
error code 25. -/
theorem registry_invariant (s : ProxyServer W) (σ₀ : State W) (reqs : List Request)
    (cs : SessionRef) (hempty : σ₀.sessions = []) :
    (cs ∈ (run s σ₀ reqs).2.sessions ↔
      (run s σ₀ reqs).1.any (isLoginSuccess cs) = true) ∧
    (∀ (σ : State W) (params : List String) (id : String),
      (handleLoginRPC s σ cs params id).1.1 = false →
      (handleLoginRPC s σ cs params id).2.sessions = σ.sessions ∧
        (handleLoginRPC s σ cs params id).2.mem = σ.mem) ∧
    (∀ (pre post : List (Request × Reply)) (e : Request × Reply),
      (run s σ₀ reqs).1 = pre ++ e :: post →
      pre.any (isLoginSuccess cs) = true →
      isNotSubscribed cs e = false) := by
  refine ⟨?_, ?_, ?_⟩
  · rw [run_sessions, hempty]
    simp
  · intro σ params id hfail
    cases params with
    | nil => exact ⟨rfl, rfl⟩
    | cons p0 rest =>
      cases hv : s.ext.IsValidHexAddress (ToLower s.ext.unicodeToLower p0) <;>
        cases hp : (s.ext.ApplyLoginPolicy σ.world (ToLower s.ext.unicodeToLower p0)
          (σ.mem cs).ip).1 <;>
        simp [handleLoginRPC, ApplyLoginPolicy, hv, hp] at hfail ⊢
  · intro pre post e h hlogged
    exact run_subscribed s cs reqs σ₀ pre post e h (Or.inr hlogged)

/-- C8, at a concrete run from an empty registry: the submit before the login
is answered with code 25, the login without parameters fails, the login of the
scenario succeeds and registers the session, and the submit after it is
accepted. -/
theorem registry_invariant_witness :
    (freshState 0).sessions = [] ∧
      (run (sampleServer false false true true false (some sampleTemplate)) (freshState 0)
        sampleRequests).1 =
        [(.submit 0 "rig1" [sampleNonce, sampleHash, sampleHash],
            .submit (.ret (false, some ⟨25, "Not subscribed"⟩))),
          (.login 0 [] "rig1", .login (false, some ⟨-1, "Invalid params"⟩)),
          (.login 0 ["0xABCDEF0123456789ABCDEF0123456789ABCDEF01"] "rig1",
            .login (true, none))] ++
        (.submit 0 "rig1" [sampleNonce, sampleHash, sampleHash],
            .submit (.ret (true, none))) :: [] ∧
      0 ∈ (run (sampleServer false false true true false (some sampleTemplate)) (freshState 0)
        sampleRequests).2.sessions ∧
      isNotSubscribed 0 (.submit 0 "rig1" [sampleNonce, sampleHash, sampleHash],
        .submit (.ret (true, none))) = false :=
  ⟨rfl, by decide,
    (registry_invariant (sampleServer false false true true false (some sampleTemplate))
      (freshState 0) sampleRequests 0 rfl).1.2 (by decide),
    (registry_invariant (sampleServer false false true true false (some sampleTemplate))
      (freshState 0) sampleRequests 0 rfl).2.2
      [(.submit 0 "rig1" [sampleNonce, sampleHash, sampleHash],
          .submit (.ret (false, some ⟨25, "Not subscribed"⟩))),
        (.login 0 [] "rig1", .login (false, some ⟨-1, "Invalid params"⟩)),
        (.login 0 ["0xABCDEF0123456789ABCDEF0123456789ABCDEF01"] "rig1", .login (true, none))]
      []
      (.submit 0 "rig1" [sampleNonce, sampleHash, sampleHash], .submit (.ret (true, none)))
      (by decide) (by decide)⟩

/-! ## The `float64` arithmetic of the retarget step -/

/-- A number below `2^k` has at most `k` binary digits. -/
theorem bitLenAux_le (fuel : Nat) : ∀ n k : Nat, n < 2 ^ k → bitLenAux fuel n ≤ k := by
  induction fuel with
  | zero => intro n k _; simp [bitLenAux]
  | succ f ih =>
    intro n k h
    unfold bitLenAux
    split_ifs with h0
    · exact Nat.zero_le _
    · cases k with
      | zero => simp at h; exact absurd h h0
      | succ k =>
        have : n / 2 < 2 ^ k := by
          rw [Nat.div_lt_iff_lt_mul (by norm_num)]
          rw [pow_succ] at h
          exact h
        have := ih (n / 2) k this
        omega

/-- With enough fuel a number is below two to the power of its number of digits. -/
theorem lt_two_pow_bitLenAux (fuel : Nat) : ∀ n : Nat, n < 2 ^ fuel → n < 2 ^ bitLenAux fuel n := by
  induction fuel with
  | zero => intro n h; simpa [bitLenAux] using h
  | succ f ih =>
    intro n h
    unfold bitLenAux
    split_ifs with h0
    · subst h0; simp
    · have h2 : n / 2 < 2 ^ f := by
        rw [Nat.div_lt_iff_lt_mul (by norm_num)]
        rw [pow_succ] at h
        exact h
      have := ih (n / 2) h2
      rw [pow_succ]
      omega

/-- A number below `2^k` has at most `k` binary digits. -/
theorem bitLen_le (n k : Nat) (h : n < 2 ^ k) : bitLen n ≤ k := bitLenAux_le n n k h

/-- A number is below two to the power of its number of binary digits. -/
theorem lt_two_pow_bitLen (n : Nat) : n < 2 ^ bitLen n :=
  lt_two_pow_bitLenAux n n (Nat.lt_two_pow n)


/-- The rounded value is a multiple of the unit in the last place, at most half
a unit away from the number. -/
theorem round53_spec (n : Nat) :
    ∃ t : Nat, roundNearestEven53 n = t * 2 ^ (bitLen n - 53) ∧
      2 * (t * 2 ^ (bitLen n - 53)) ≤ 2 * n + 2 ^ (bitLen n - 53) ∧
      2 * n ≤ 2 * (t * 2 ^ (bitLen n - 53)) + 2 ^ (bitLen n - 53) := by
  have hP : 0 < 2 ^ (bitLen n - 53) := Nat.pow_pos (by norm_num)
  generalize hPdef : 2 ^ (bitLen n - 53) = P at hP
  have hdm := Nat.div_add_mod n P
  have hmod := Nat.mod_lt n hP
  have hcomm : P * (n / P) = n / P * P := Nat.mul_comm _ _
  unfold roundNearestEven53
  simp only [hPdef]
  split_ifs with h
  · refine ⟨n / P + 1, rfl, ?_, ?_⟩
    · rw [Nat.add_mul]
      rcases h with h | ⟨h, -⟩ <;> omega
    · rw [Nat.add_mul]
      omega
  · refine ⟨n / P, rfl, ?_, ?_⟩
    · omega
    · have : 2 * (n % P) ≤ P := by
        by_contra hc
        exact h (Or.inl (by omega))
      omega

/-- A multiple of the unit less than half a unit away is the rounded value. -/
theorem round53_unique (n M : Nat) (hdvd : 2 ^ (bitLen n - 53) ∣ M)
    (h1 : 2 * M < 2 * n + 2 ^ (bitLen n - 53)) (h2 : 2 * n < 2 * M + 2 ^ (bitLen n - 53)) :
    roundNearestEven53 n = M := by
  obtain ⟨t, ht, hb1, hb2⟩ := round53_spec n
  obtain ⟨m, rfl⟩ := hdvd
  generalize 2 ^ (bitLen n - 53) = P at *
  rw [ht, Nat.mul_comm P m]
  rw [Nat.mul_comm P m] at h1 h2
  rcases Nat.lt_trichotomy t m with h | h | h
  · have := Nat.mul_le_mul_right P (Nat.succ_le_of_lt h)
    rw [Nat.succ_mul] at this
    omega
  · rw [h]
  · have := Nat.mul_le_mul_right P (Nat.succ_le_of_lt h)
    rw [Nat.succ_mul] at this
    omega

/-- Rounding does not go below a multiple of the unit that is below the
number. -/
theorem round53_ge (n M : Nat) (hdvd : 2 ^ (bitLen n - 53) ∣ M) (h : M ≤ n) :
    M ≤ roundNearestEven53 n := by
  obtain ⟨t, ht, hb1, hb2⟩ := round53_spec n
  obtain ⟨m, rfl⟩ := hdvd
  have hP : 0 < 2 ^ (bitLen n - 53) := Nat.pow_pos (by norm_num)
  generalize 2 ^ (bitLen n - 53) = P at *
  rw [ht, Nat.mul_comm P m]
  rw [Nat.mul_comm P m] at h
  by_contra hc
  have hlt : t < m := by
    by_contra hge
    exact hc (Nat.mul_le_mul_right P (Nat.le_of_not_lt hge))
  have := Nat.mul_le_mul_right P (Nat.succ_le_of_lt hlt)
  rw [Nat.succ_mul] at this
  omega


/-- The unit in the last place of a number below `2^(53+b)` is a power of two
of exponent at most `b`. -/
theorem round53_scale (N b : Nat) (hN : N < 2 ^ (53 + b)) :
    2 ^ (bitLen N - 53) ≤ 2 ^ b ∧ 2 ^ (bitLen N - 53) ∣ 2 ^ b ∧
      N < 2 ^ 53 * 2 ^ (bitLen N - 53) := by
  have hlen := bitLen_le N (53 + b) hN
  have he : bitLen N - 53 ≤ b := by omega
  refine ⟨Nat.pow_le_pow_right (by norm_num) he, pow_dvd_pow 2 he, ?_⟩
  rw [← pow_add]
  exact lt_of_lt_of_le (lt_two_pow_bitLen N) (Nat.pow_le_pow_right (by norm_num) (by omega))

/-- The product of `d` and the double nearest to `1.2`, rounded and truncated,
is `6d/5` rounded down, for `d` below `2^50`. -/
theorem round53_up (d : Nat) (hd : d < 2 ^ 50) :
    roundNearestEven53 (d * 5404319552844595) / 2 ^ 52 = d * 6 / 5 := by
  have hN : d * 5404319552844595 < 2 ^ (53 + 50) := by
    norm_num at hd ⊢
    omega
  obtain ⟨hle, hdvd, hlt⟩ := round53_scale _ 50 hN
  have hdvd52 : 2 ^ (bitLen (d * 5404319552844595) - 53) ∣ d * 6 / 5 * 2 ^ 52 :=
    Dvd.dvd.mul_left (hdvd.trans (pow_dvd_pow 2 (by norm_num))) _
  obtain ⟨t, ht, hb1, hb2⟩ := round53_spec (d * 5404319552844595)
  have hP : 0 < 2 ^ (bitLen (d * 5404319552844595) - 53) := Nat.pow_pos (by norm_num)
  by_cases hj : d * 6 % 5 = 0
  · have : roundNearestEven53 (d * 5404319552844595) = d * 6 / 5 * 2 ^ 52 := by
      apply round53_unique _ _ hdvd52
      · generalize 2 ^ (bitLen (d * 5404319552844595) - 53) = P at *
        norm_num at hlt hd ⊢
        omega
      · generalize 2 ^ (bitLen (d * 5404319552844595) - 53) = P at *
        norm_num at hlt hd ⊢
        omega
    rw [this, Nat.mul_div_cancel _ (by norm_num)]
  · have hge := round53_ge _ _ hdvd52 (by norm_num at hd ⊢; omega)
    rw [ht] at hge ⊢
    generalize t * 2 ^ (bitLen (d * 5404319552844595) - 53) = R at *
    generalize 2 ^ (bitLen (d * 5404319552844595) - 53) = P at *
    norm_num at hle hd hge ⊢
    omega

/-- The product of `d` and the double nearest to `0.8`, rounded and truncated,
is `4d/5` rounded down, for `d` below `2^50`. -/
theorem round53_down (d : Nat) (hd : d < 2 ^ 50) :
    roundNearestEven53 (d * 3602879701896397) / 2 ^ 52 = d * 4 / 5 := by
  have hN : d * 3602879701896397 < 2 ^ (53 + 50) := by
    norm_num at hd ⊢
    omega
  obtain ⟨hle, hdvd, hlt⟩ := round53_scale _ 50 hN
  have hdvd52 : 2 ^ (bitLen (d * 3602879701896397) - 53) ∣ d * 4 / 5 * 2 ^ 52 :=
    Dvd.dvd.mul_left (hdvd.trans (pow_dvd_pow 2 (by norm_num))) _
  obtain ⟨t, ht, hb1, hb2⟩ := round53_spec (d * 3602879701896397)
  have hge := round53_ge _ _ hdvd52 (by norm_num at hd ⊢; omega)
  rw [ht] at hge ⊢
  generalize t * 2 ^ (bitLen (d * 3602879701896397) - 53) = R at *
  generalize 2 ^ (bitLen (d * 3602879701896397) - 53) = P at *
  norm_num at hle hd hge ⊢
  omega

/-- The product of `d` and `1.0` is `d`, for `d` below `2^53`. -/
theorem round53_same (d : Nat) (hd : d < 2 ^ 53) :
    roundNearestEven53 (d * 4503599627370496) / 2 ^ 52 = d := by
  have hN : d * 4503599627370496 < 2 ^ (53 + 52) := by
    norm_num at hd ⊢
    omega
  obtain ⟨hle, hdvd, hlt⟩ := round53_scale _ 52 hN
  have hP : 0 < 2 ^ (bitLen (d * 4503599627370496) - 53) := Nat.pow_pos (by norm_num)
  have : roundNearestEven53 (d * 4503599627370496) = d * 2 ^ 52 := by
    apply round53_unique _ _ (Dvd.dvd.mul_left hdvd _)
    · norm_num
    · norm_num
  rw [this, Nat.mul_div_cancel _ (by norm_num)]

/-- The integers below `2^53` are doubles. -/
theorem round53_small (d : Nat) (hd : d < 2 ^ 53) : roundNearestEven53 d = d := by
  have h0 : bitLen d - 53 = 0 := by
    have := bitLen_le d 53 hd
    omega
  apply round53_unique
  · rw [h0]
    simp
  · rw [h0]
    omega
  · rw [h0]
    omega


/-- Truncating division by five through the absolute value. -/
theorem tdiv_natAbs (D : Int) (c : Nat) :
    Int.tdiv (D * c) 5 = if D < 0 then -((D.natAbs * c / 5 : Nat) : Int)
      else ((D.natAbs * c / 5 : Nat) : Int) := by
  rcases Int.natAbs_eq D with h | h
  · have h0 : ¬D < 0 := by omega
    rw [if_neg h0]
    conv_lhs => rw [h]
    rw [Int.tdiv_eq_ediv (by positivity) (by norm_num)]
    push_cast
    rfl
  · by_cases h0 : D < 0
    · rw [if_pos h0]
      conv_lhs => rw [h]
      rw [Int.neg_mul, Int.neg_tdiv, Int.tdiv_eq_ediv (by positivity) (by norm_num)]
      push_cast
      rfl
    · have hz : D.natAbs = 0 := by omega
      have hD : D = 0 := by omega
      rw [if_neg h0, hD]
      simp

/-- For a difficulty of absolute value below `2^50` the `float64` computation of
the retarget step is exact: it is the product with `6/5`, `4/5` or `1`,
truncated toward zero. -/
theorem scaleDiff_exact (D : Int) (h : D.natAbs < 2 ^ 50) :
    scaleDiff D .up = Int.tdiv (D * 6) 5 ∧ scaleDiff D .down = Int.tdiv (D * 4) 5 ∧
      scaleDiff D .same = D := by
  have h53 : D.natAbs < 2 ^ 53 := lt_trans h (by norm_num)
  have hup := round53_up D.natAbs h
  have hdown := round53_down D.natAbs h
  have hsame := round53_same D.natAbs h53
  have hsmall := round53_small D.natAbs h53
  have h6 := tdiv_natAbs D 6
  have h4 := tdiv_natAbs D 4
  simp only [Nat.cast_ofNat] at h6 h4
  simp only [scaleDiff, hsmall, Factor.significand, hup, hdown, hsame, h6, h4]
  norm_num at h
  refine ⟨?_, ?_, ?_⟩ <;> split_ifs <;> omega

/-- The `float64` product with `1.0` gives back every difficulty of absolute
value below `2^53`. -/
theorem scaleDiff_same (D : Int) (h : D.natAbs < 2 ^ 53) : scaleDiff D .same = D := by
  have hsame := round53_same D.natAbs h
  have hsmall := round53_small D.natAbs h
  simp only [scaleDiff, hsmall, Factor.significand, hsame]
  norm_num at h
  split_ifs <;> omega

/-! ## The accepted path and the retarget step -/

/-- On a well-formed submit that the share engine reports as new and valid and
the share policy allows, the handler retargets, if retargeting is on and the
session has a previous share, and stores the time stamp. -/
theorem handleSubmitRPC_accepted (s : ProxyServer W) (σ : State W) (cs : SessionRef)
    (login id nonce mix result : String) (w₁ w₂ : W)
    (hnonce : noncePattern nonce = true) (hmix : hashPattern mix = true)
    (hresult : hashPattern result = true)
    (hshare : s.ext.processShare σ.world login (workerOrDefault id)
      (σ.mem cs).ip (toInt64 (s.ext.TargetHexToDiff (σ.mem cs).diff))
      (s.ext.currentBlockTemplate σ.world) [nonce, mix, result] = ((false, true), w₁))
    (hpolicy : s.ext.ApplySharePolicy w₁ (σ.mem cs).ip (!false && true) = (true, w₂)) :
    handleSubmitRPC s σ cs login id [nonce, mix, result] =
      if s.config.Proxy.DynamicDifficulty.Enabled && (σ.mem cs).lastShareTime != 0 then
        afterRetarget s cs (retarget s (acceptedState s σ cs login id [nonce, mix, result] w₂)
          cs login (workerOrDefault id) (s.ext.currentBlockTemplate σ.world))
      else
        recordShareTime s (acceptedState s σ cs login id [nonce, mix, result] w₂) cs := by
  rw [handleSubmitRPC_wellFormed s σ cs login id nonce mix result false true true w₁ w₂
    hnonce hmix hresult hshare hpolicy]
  rfl

/-- The accepted state has the sessions, the registry and the world of the
start, and four more calls. -/
theorem acceptedState_fields (s : ProxyServer W) (σ : State W) (cs : SessionRef)
    (login id : String) (params : List String) (w₂ : W) :
    (acceptedState s σ cs login id params w₂).mem = σ.mem ∧
      (acceptedState s σ cs login id params w₂).sessions = σ.sessions ∧
      (acceptedState s σ cs login id params w₂).world = w₂ ∧
      (acceptedState s σ cs login id params w₂).calls.countP Call.isPushNewJob
        = σ.calls.countP Call.isPushNewJob := by
  simp [acceptedState, afterShare, Printf, State.record, List.countP_append, List.countP_cons,
    Call.isPushNewJob]

/-- With a zero interval the retarget step panics in the division, before any
write to the session. -/
theorem retarget_zero (s : ProxyServer W) (σ : State W) (cs : SessionRef) (login id : String)
    (t : Option BlockTemplate)
    (h : toInt64 ((s.ext.MakeTimestamp σ.world).1 - (σ.mem cs).lastShareTime) = 0) :
    retarget s σ cs login id t = (.panic .integerDivideByZero, (MakeTimestamp s σ).2) := by
  unfold retarget
  simp only [MakeTimestamp] at h ⊢
  rw [if_pos h]

/-- With a non-zero interval the retarget step writes the new difficulty, and
nothing else, to the session, whether or not it panics afterwards. -/
theorem retarget_mem (s : ProxyServer W) (σ : State W) (cs : SessionRef) (login id : String)
    (t : Option BlockTemplate)
    (h : toInt64 ((s.ext.MakeTimestamp σ.world).1 - (σ.mem cs).lastShareTime) ≠ 0) :
    (retarget s σ cs login id t).2.mem = fun r =>
      if r = cs then
        { σ.mem cs with
          diff := s.ext.GetTargetHex (scaleDiff (toInt64 (s.ext.TargetHexToDiff (σ.mem cs).diff))
            (factorFor s.config.Proxy.DynamicDifficulty
              (toInt64 ((s.ext.MakeTimestamp σ.world).1 - (σ.mem cs).lastShareTime)))) }
      else σ.mem r := by
  unfold retarget
  simp only [MakeTimestamp] at h ⊢
  rw [if_neg h]
  simp only [factorFor, pushNewJob, Printf, State.record, State.store]
  split_ifs <;> (try split) <;> (try split) <;> rfl

/-- With a non-zero interval the retarget step panics when the login has fewer
than ten bytes, or else when there is no template, and completes otherwise. -/
theorem retarget_outcome (s : ProxyServer W) (σ : State W) (cs : SessionRef) (login id : String)
    (t : Option BlockTemplate)
    (h : toInt64 ((s.ext.MakeTimestamp σ.world).1 - (σ.mem cs).lastShareTime) ≠ 0) :
    (retarget s σ cs login id t).1 =
      if login.utf8ByteSize < 10 then .panic .sliceBoundsOutOfRange
      else if t = none then .panic .nilPointerDereference
      else .ret () := by
  unfold retarget
  simp only [MakeTimestamp] at h ⊢
  rw [if_neg h]
  by_cases h1 : login.utf8ByteSize < 10
  · rw [if_pos h1, if_pos h1]
  · rw [if_neg h1, if_neg h1]
    cases t with
    | none => rfl
    | some tt =>
      simp only [pushNewJob, reduceCtorEq, if_false]
      split <;> rfl

/-- The retarget step pushes one job when it completes and none when it
panics. -/
theorem retarget_push (s : ProxyServer W) (σ : State W) (cs : SessionRef) (login id : String)
    (t : Option BlockTemplate) :
    (retarget s σ cs login id t).2.calls.countP Call.isPushNewJob =
      σ.calls.countP Call.isPushNewJob +
        if (retarget s σ cs login id t).1 = .ret () then 1 else 0 := by
  unfold retarget
  simp only [MakeTimestamp, pushNewJob, Printf, State.record, State.store]
  split_ifs <;> (try split) <;> (try split) <;>
    simp_all [List.countP_append, List.countP_cons, Call.isPushNewJob]

/-- After a retarget step that panicked the handler ends with the panic. -/
theorem afterRetarget_panic (s : ProxyServer W) (cs : SessionRef) (x : Outcome Unit × State W)
    (e : RuntimeError) (h : x.1 = .panic e) : afterRetarget s cs x = (.panic e, x.2) := by
  rcases x with ⟨_ | e', σ₄⟩
  · cases h
  · cases h
    rfl

/-- After a retarget step that completed the handler stores the time stamp. -/
theorem afterRetarget_ret (s : ProxyServer W) (cs : SessionRef) (x : Outcome Unit × State W)
    (h : x.1 = .ret ()) : afterRetarget s cs x = recordShareTime s x.2 cs := by
  rcases x with ⟨_ | e', σ₄⟩
  · rfl
  · cases h

/-- Storing the time stamp writes the answer of the clock to `lastShareTime` of
the session and nothing else; no job is pushed. -/
theorem recordShareTime_state (s : ProxyServer W) (σ : State W) (cs : SessionRef) :
    (recordShareTime s σ cs).2.mem = (fun r =>
        if r = cs then { σ.mem cs with lastShareTime := (s.ext.MakeTimestamp σ.world).1 }
        else σ.mem r) ∧
      (recordShareTime s σ cs).2.world = (s.ext.MakeTimestamp σ.world).2 ∧
      (recordShareTime s σ cs).2.calls = σ.calls ++ [.MakeTimestamp] ∧
      (recordShareTime s σ cs).2.calls.countP Call.isPushNewJob
        = σ.calls.countP Call.isPushNewJob := by
  simp [recordShareTime, MakeTimestamp, State.store, List.countP_append, List.countP_cons,
    Call.isPushNewJob]

/-- The accepted path with a retarget step over a non-zero interval: the
difficulty written to the session is the `float64` product for the factor of
the interval, and the handler acknowledges the share unless the login has fewer
than ten bytes or there is no template, in which cases it panics. -/
theorem handleSubmitRPC_retargeted (s : ProxyServer W) (σ : State W) (cs : SessionRef)
    (login id nonce mix result : String) (w₁ w₂ w₃ : W) (now : Int)
    (hnonce : noncePattern nonce = true) (hmix : hashPattern mix = true)
    (hresult : hashPattern result = true)
    (hshare : s.ext.processShare σ.world login (workerOrDefault id)
      (σ.mem cs).ip (toInt64 (s.ext.TargetHexToDiff (σ.mem cs).diff))
      (s.ext.currentBlockTemplate σ.world) [nonce, mix, result] = ((false, true), w₁))
    (hpolicy : s.ext.ApplySharePolicy w₁ (σ.mem cs).ip (!false && true) = (true, w₂))
    (henabled : s.config.Proxy.DynamicDifficulty.Enabled = true)
    (hlast : (σ.mem cs).lastShareTime ≠ 0)
    (hnow : s.ext.MakeTimestamp w₂ = (now, w₃))
    (hd : toInt64 (now - (σ.mem cs).lastShareTime) ≠ 0) :
    ((handleSubmitRPC s σ cs login id [nonce, mix, result]).2.mem cs).diff =
        s.ext.GetTargetHex (scaleDiff (toInt64 (s.ext.TargetHexToDiff (σ.mem cs).diff))
          (factorFor s.config.Proxy.DynamicDifficulty
            (toInt64 (now - (σ.mem cs).lastShareTime)))) ∧
      (handleSubmitRPC s σ cs login id [nonce, mix, result]).1 =
        (if login.utf8ByteSize < 10 then .panic .sliceBoundsOutOfRange
        else if s.ext.currentBlockTemplate σ.world = none then .panic .nilPointerDereference
        else .ret (true, none)) := by
  rw [handleSubmitRPC_accepted s σ cs login id nonce mix result w₁ w₂ hnonce hmix hresult
    hshare hpolicy]
  have hcond : (s.config.Proxy.DynamicDifficulty.Enabled && (σ.mem cs).lastShareTime != 0)
      = true := by
    simp [henabled, hlast]
  rw [if_pos hcond]
  have hd' : toInt64 ((s.ext.MakeTimestamp
      (acceptedState s σ cs login id [nonce, mix, result] w₂).world).1 -
      ((acceptedState s σ cs login id [nonce, mix, result] w₂).mem cs).lastShareTime) ≠ 0 := by
    show toInt64 ((s.ext.MakeTimestamp w₂).1 - (σ.mem cs).lastShareTime) ≠ 0
    rw [hnow]
    exact hd
  have hmem := retarget_mem s (acceptedState s σ cs login id [nonce, mix, result] w₂) cs login
    (workerOrDefault id) (s.ext.currentBlockTemplate σ.world) hd'
  have hout := retarget_outcome s (acceptedState s σ cs login id [nonce, mix, result] w₂) cs
    login (workerOrDefault id) (s.ext.currentBlockTemplate σ.world) hd'
  have hmem' : ((retarget s (acceptedState s σ cs login id [nonce, mix, result] w₂) cs login
      (workerOrDefault id) (s.ext.currentBlockTemplate σ.world)).2.mem cs).diff =
      s.ext.GetTargetHex (scaleDiff (toInt64 (s.ext.TargetHexToDiff (σ.mem cs).diff))
        (factorFor s.config.Proxy.DynamicDifficulty
          (toInt64 (now - (σ.mem cs).lastShareTime)))) := by
    rw [hmem]
    simp [(acceptedState_fields s σ cs login id [nonce, mix, result] w₂).1,
      (acceptedState_fields s σ cs login id [nonce, mix, result] w₂).2.2.1, hnow]
  generalize retarget s (acceptedState s σ cs login id [nonce, mix, result] w₂) cs login
    (workerOrDefault id) (s.ext.currentBlockTemplate σ.world) = x at hout hmem'
  by_cases h1 : login.utf8ByteSize < 10
  · rw [if_pos h1] at hout
    rw [if_pos h1, afterRetarget_panic s cs x _ hout]
    exact ⟨hmem', rfl⟩
  · rw [if_neg h1] at hout
    rw [if_neg h1]
    by_cases h2 : s.ext.currentBlockTemplate σ.world = none
    · rw [if_pos h2] at hout
      rw [if_pos h2, afterRetarget_panic s cs x _ hout]
      exact ⟨hmem', rfl⟩
    · rw [if_neg h2] at hout
      rw [if_neg h2, afterRetarget_ret s cs x hout]
      refine ⟨?_, rfl⟩
      rw [(recordShareTime_state s x.2 cs).1]
      simpa using hmem'

/-! ## The retarget arithmetic -/

set_option maxRecDepth 100000 in
/-- C11, as stated, fails where `float64` is not exact: for a session whose
difficulty has the integer form 2814749767106556 and a share 10000 ms after the
last one (rate 6, below the minimum 20), the product with `0.8` truncated is
2251799813685244, and the difficulty the code stores is the encoding of
2251799813685245. -/
theorem retarget_step_counterexample :
    sampleTargetHexToDiff (sampleGetTargetHex 2814749767106556) = 2814749767106556 ∧
      Int.tdiv (2814749767106556 * 4) 5 = 2251799813685244 ∧
      (handleSubmitRPC (vardiffServer (some sampleTemplate))
          (vardiffState 13000 2814749767106556 3000) 0
          "0xabcdef0123456789abcdef0123456789abcdef01" "rig1"
          [sampleNonce, sampleHash, sampleHash]).1 = .ret (true, none) ∧
      ((handleSubmitRPC (vardiffServer (some sampleTemplate))
          (vardiffState 13000 2814749767106556 3000) 0
          "0xabcdef0123456789abcdef0123456789abcdef01" "rig1"
          [sampleNonce, sampleHash, sampleHash]).2.mem 0).diff
        = sampleGetTargetHex 2251799813685245 ∧
      sampleGetTargetHex 2251799813685245 ≠ sampleGetTargetHex 2251799813685244 := by
  decide

/-- C11, amended. On a fully accepted share with retargeting on, a previous
share and a positive interval `d`, the difficulty written to the session is the
encoding of `int64(float64(D) * f)`, with `D` the integer form of the difficulty
before the call and `f` chosen from the rate `60000 / d` and the two thresholds
alone; for `D` of absolute value below `2^50` that integer is the product of `D`
with `1.2`, `0.8` or `1.0` truncated toward zero. -/
theorem retarget_step (s : ProxyServer W) (σ : State W) (cs : SessionRef)
    (login id nonce mix result : String) (w₁ w₂ w₃ : W) (now : Int)
    (hnonce : noncePattern nonce = true) (hmix : hashPattern mix = true)
    (hresult : hashPattern result = true)
    (hshare : s.ext.processShare σ.world login (workerOrDefault id)
      (σ.mem cs).ip (toInt64 (s.ext.TargetHexToDiff (σ.mem cs).diff))
      (s.ext.currentBlockTemplate σ.world) [nonce, mix, result] = ((false, true), w₁))
    (hpolicy : s.ext.ApplySharePolicy w₁ (σ.mem cs).ip (!false && true) = (true, w₂))
    (henabled : s.config.Proxy.DynamicDifficulty.Enabled = true)
    (hlast : (σ.mem cs).lastShareTime ≠ 0)
    (hnow : s.ext.MakeTimestamp w₂ = (now, w₃))
    (hpos : 0 < toInt64 (now - (σ.mem cs).lastShareTime)) :
    ((handleSubmitRPC s σ cs login id [nonce, mix, result]).2.mem cs).diff =
        s.ext.GetTargetHex (scaleDiff (toInt64 (s.ext.TargetHexToDiff (σ.mem cs).diff))
          (if Int.tdiv 60000 (toInt64 (now - (σ.mem cs).lastShareTime))
              > s.config.Proxy.DynamicDifficulty.MaxSubmitRate then Factor.up
            else if Int.tdiv 60000 (toInt64 (now - (σ.mem cs).lastShareTime))
              < s.config.Proxy.DynamicDifficulty.MinSubmitRate then Factor.down
            else Factor.same)) ∧
      ((toInt64 (s.ext.TargetHexToDiff (σ.mem cs).diff)).natAbs < 2 ^ 50 →
        ((handleSubmitRPC s σ cs login id [nonce, mix, result]).2.mem cs).diff =
          s.ext.GetTargetHex
            (if Int.tdiv 60000 (toInt64 (now - (σ.mem cs).lastShareTime))
                > s.config.Proxy.DynamicDifficulty.MaxSubmitRate then
              Int.tdiv (toInt64 (s.ext.TargetHexToDiff (σ.mem cs).diff) * 6) 5
            else if Int.tdiv 60000 (toInt64 (now - (σ.mem cs).lastShareTime))
                < s.config.Proxy.DynamicDifficulty.MinSubmitRate then
              Int.tdiv (toInt64 (s.ext.TargetHexToDiff (σ.mem cs).diff) * 4) 5
            else toInt64 (s.ext.TargetHexToDiff (σ.mem cs).diff))) := by
  have hd : toInt64 (now - (σ.mem cs).lastShareTime) ≠ 0 := by omega
  have h := (handleSubmitRPC_retargeted s σ cs login id nonce mix result w₁ w₂ w₃ now hnonce
    hmix hresult hshare hpolicy henabled hlast hnow hd).1
  have hf : factorFor s.config.Proxy.DynamicDifficulty
      (toInt64 (now - (σ.mem cs).lastShareTime)) =
      (if Int.tdiv 60000 (toInt64 (now - (σ.mem cs).lastShareTime))
          > s.config.Proxy.DynamicDifficulty.MaxSubmitRate then Factor.up
        else if Int.tdiv 60000 (toInt64 (now - (σ.mem cs).lastShareTime))
          < s.config.Proxy.DynamicDifficulty.MinSubmitRate then Factor.down
        else Factor.same) := by
    unfold factorFor
    norm_num
  rw [hf] at h
  refine ⟨h, ?_⟩
  intro hD
  obtain ⟨hup, hdown, hsame⟩ := scaleDiff_exact _ hD
  rw [h]
  split_ifs
  · rw [hup]
  · rw [hdown]
  · rw [hsame]

set_option maxRecDepth 100000 in
/-- C11 amended, at concrete inputs with difficulty 4000000000 and the
thresholds 40 and 20: a share 1000 ms after the last one (rate 60) raises the
difficulty to 4800000000, one 10000 ms after (rate 6) lowers it to
3200000000. -/
theorem retarget_step_witness :
    (0 : Int) < toInt64 (4000 - 3000) ∧
      (toInt64 (sampleTargetHexToDiff (sampleGetTargetHex 4000000000))).natAbs < 2 ^ 50 ∧
      ((handleSubmitRPC (vardiffServer (some sampleTemplate))
          (vardiffState 4000 4000000000 3000) 0
          "0xabcdef0123456789abcdef0123456789abcdef01" "rig1"
          [sampleNonce, sampleHash, sampleHash]).2.mem 0).diff
        = sampleGetTargetHex 4800000000 ∧
      ((handleSubmitRPC (vardiffServer (some sampleTemplate))
          (vardiffState 13000 4000000000 3000) 0
          "0xabcdef0123456789abcdef0123456789abcdef01" "rig1"
          [sampleNonce, sampleHash, sampleHash]).2.mem 0).diff
        = sampleGetTargetHex 3200000000 :=
  ⟨by decide, by decide,
    ((retarget_step (vardiffServer (some sampleTemplate)) (vardiffState 4000 4000000000 3000) 0
      "0xabcdef0123456789abcdef0123456789abcdef01" "rig1" sampleNonce sampleHash sampleHash
      4000 4000 4000 4000 (by decide) (by decide) (by decide) rfl rfl rfl (by decide) rfl
      (by decide)).2 (by decide)).trans (by decide),
    ((retarget_step (vardiffServer (some sampleTemplate)) (vardiffState 13000 4000000000 3000) 0
      "0xabcdef0123456789abcdef0123456789abcdef01" "rig1" sampleNonce sampleHash sampleHash
      13000 13000 13000 13000 (by decide) (by decide) (by decide) rfl rfl rfl (by decide) rfl
      (by decide)).2 (by decide)).trans (by decide)⟩

set_option maxRecDepth 100000 in
/-- C12, as stated, fails where `float64` is not exact: for the difficulty
string that encodes 9007199254740993, which the decoding gives back, and a
share 2000 ms after the last one (rate 30, between the thresholds 20 and 40),
the difficulty string after the call is the encoding of 9007199254740992. -/
theorem retarget_same_counterexample :
    sampleGetTargetHex (toInt64 (sampleTargetHexToDiff (sampleGetTargetHex 9007199254740993)))
        = sampleGetTargetHex 9007199254740993 ∧
      (handleSubmitRPC (vardiffServer (some sampleTemplate))
          (vardiffState 5000 9007199254740993 3000) 0
          "0xabcdef0123456789abcdef0123456789abcdef01" "rig1"
          [sampleNonce, sampleHash, sampleHash]).1 = .ret (true, none) ∧
      ((vardiffState 5000 9007199254740993 3000).mem 0).diff
        = sampleGetTargetHex 9007199254740993 ∧
      ((handleSubmitRPC (vardiffServer (some sampleTemplate))
          (vardiffState 5000 9007199254740993 3000) 0
          "0xabcdef0123456789abcdef0123456789abcdef01" "rig1"
          [sampleNonce, sampleHash, sampleHash]).2.mem 0).diff
        = sampleGetTargetHex 9007199254740992 ∧
      sampleGetTargetHex 9007199254740992 ≠ sampleGetTargetHex 9007199254740993 := by
  decide

/-- C12, amended. On a fully accepted share with retargeting on, a previous
share and a rate `60000 / interval` between the two thresholds, the difficulty
string of the session after the call is the one before the call, provided the
integer form `D` of the string has absolute value below `2^53` and
`GetTargetHex` maps `D` back to the string. -/
theorem retarget_same_noop (s : ProxyServer W) (σ : State W) (cs : SessionRef)
    (login id nonce mix result : String) (w₁ w₂ w₃ : W) (now : Int)
    (hnonce : noncePattern nonce = true) (hmix : hashPattern mix = true)
    (hresult : hashPattern result = true)
    (hshare : s.ext.processShare σ.world login (workerOrDefault id)
      (σ.mem cs).ip (toInt64 (s.ext.TargetHexToDiff (σ.mem cs).diff))
      (s.ext.currentBlockTemplate σ.world) [nonce, mix, result] = ((false, true), w₁))
    (hpolicy : s.ext.ApplySharePolicy w₁ (σ.mem cs).ip (!false && true) = (true, w₂))
    (henabled : s.config.Proxy.DynamicDifficulty.Enabled = true)
    (hlast : (σ.mem cs).lastShareTime ≠ 0)
    (hnow : s.ext.MakeTimestamp w₂ = (now, w₃))
    (hd : toInt64 (now - (σ.mem cs).lastShareTime) ≠ 0)
    (hmin : s.config.Proxy.DynamicDifficulty.MinSubmitRate
      ≤ Int.tdiv 60000 (toInt64 (now - (σ.mem cs).lastShareTime)))
    (hmax : Int.tdiv 60000 (toInt64 (now - (σ.mem cs).lastShareTime))
      ≤ s.config.Proxy.DynamicDifficulty.MaxSubmitRate)
    (hD : (toInt64 (s.ext.TargetHexToDiff (σ.mem cs).diff)).natAbs < 2 ^ 53)
    (hround : s.ext.GetTargetHex (toInt64 (s.ext.TargetHexToDiff (σ.mem cs).diff))
      = (σ.mem cs).diff) :
    ((handleSubmitRPC s σ cs login id [nonce, mix, result]).2.mem cs).diff
      = (σ.mem cs).diff := by
  have h := (handleSubmitRPC_retargeted s σ cs login id nonce mix result w₁ w₂ w₃ now hnonce
    hmix hresult hshare hpolicy henabled hlast hnow hd).1
  have hf : factorFor s.config.Proxy.DynamicDifficulty
      (toInt64 (now - (σ.mem cs).lastShareTime)) = Factor.same := by
    unfold factorFor
    norm_num
    rw [if_neg (by omega), if_neg (by omega)]
  rw [h, hf, scaleDiff_same _ hD, hround]

set_option maxRecDepth 100000 in
/-- C12 amended, at the scenario: difficulty 4000000000, a share 2000 ms after
the last one, thresholds 20 and 40; the difficulty string is unchanged. -/
theorem retarget_same_noop_witness :
    toInt64 (5000 - 3000) ≠ 0 ∧
      (20 : Int) ≤ Int.tdiv 60000 (toInt64 (5000 - 3000)) ∧
      Int.tdiv 60000 (toInt64 (5000 - 3000)) ≤ (40 : Int) ∧
      sampleGetTargetHex (toInt64 (sampleTargetHexToDiff (sampleGetTargetHex 4000000000)))
        = sampleGetTargetHex 4000000000 ∧
      ((handleSubmitRPC (vardiffServer (some sampleTemplate))
          (vardiffState 5000 4000000000 3000) 0
          "0xabcdef0123456789abcdef0123456789abcdef01" "rig1"
          [sampleNonce, sampleHash, sampleHash]).2.mem 0).diff
        = ((vardiffState 5000 4000000000 3000).mem 0).diff :=
  ⟨by decide, by decide, by decide, by decide,
    retarget_same_noop (vardiffServer (some sampleTemplate)) (vardiffState 5000 4000000000 3000)
      0 "0xabcdef0123456789abcdef0123456789abcdef01" "rig1" sampleNonce sampleHash sampleHash
      5000 5000 5000 5000 (by decide) (by decide) (by decide) rfl rfl rfl (by decide) rfl
      (by decide) (by decide) (by decide) (by decide) (by decide)⟩

/-! ## What a submit writes to the session -/

/-- The retarget step writes at most the difficulty of the session. -/
theorem retarget_session_frame (s : ProxyServer W) (σ : State W) (cs : SessionRef)
    (login id : String) (t : Option BlockTemplate) :
    (∀ r, r ≠ cs → (retarget s σ cs login id t).2.mem r = σ.mem r) ∧
      ((retarget s σ cs login id t).2.mem cs).login = (σ.mem cs).login ∧
      ((retarget s σ cs login id t).2.mem cs).id = (σ.mem cs).id ∧
      ((retarget s σ cs login id t).2.mem cs).ip = (σ.mem cs).ip ∧
      ((retarget s σ cs login id t).2.mem cs).lastShareTime = (σ.mem cs).lastShareTime := by
  by_cases h : toInt64 ((s.ext.MakeTimestamp σ.world).1 - (σ.mem cs).lastShareTime) = 0
  · rw [retarget_zero s σ cs login id t h]
    exact ⟨fun _ _ => rfl, rfl, rfl, rfl, rfl⟩
  · rw [retarget_mem s σ cs login id t h]
    refine ⟨?_, ?_, ?_, ?_, ?_⟩
    · intro r hr
      simp [hr]
    all_goals simp

/-- What follows the retarget step writes at most the last share time of the
session, and only when it acknowledges the share. -/
theorem afterRetarget_session_frame (s : ProxyServer W) (cs : SessionRef)
    (x : Outcome Unit × State W) :
    (∀ r, r ≠ cs → (afterRetarget s cs x).2.mem r = x.2.mem r) ∧
      ((afterRetarget s cs x).2.mem cs).login = (x.2.mem cs).login ∧
      ((afterRetarget s cs x).2.mem cs).id = (x.2.mem cs).id ∧
      ((afterRetarget s cs x).2.mem cs).ip = (x.2.mem cs).ip ∧
      ((afterRetarget s cs x).2.mem cs).diff = (x.2.mem cs).diff ∧
      ((afterRetarget s cs x).1 ≠ .ret (true, none) →
        ((afterRetarget s cs x).2.mem cs).lastShareTime = (x.2.mem cs).lastShareTime) ∧
      ((afterRetarget s cs x).1 = .ret (true, none) →
        ((afterRetarget s cs x).2.mem cs).lastShareTime = (s.ext.MakeTimestamp x.2.world).1 ∧
        (afterRetarget s cs x).2.world = (s.ext.MakeTimestamp x.2.world).2) := by
  rcases x with ⟨_ | e, σ₄⟩
  · simp [afterRetarget, recordShareTime, MakeTimestamp, State.store]
    intro r hr
    simp [hr]
  · simp [afterRetarget]

/-- The shapes of a call of `handleSubmitRPC`: it returns a reply other than
`(true, nil)` without writing a session or pushing a job, or it is on the
accepted path, where it retargets and stores the time stamp, or only stores the
time stamp, from a state with the sessions of the start. -/
theorem handleSubmitRPC_shape (s : ProxyServer W) (σ : State W) (cs : SessionRef)
    (login id : String) (params : List String) (out : Outcome (Bool × Option ErrorReply) × State W)
    (hout : handleSubmitRPC s σ cs login id params = out) :
    (∃ r, r ≠ (true, none) ∧ out.1 = .ret r ∧ out.2.mem = σ.mem ∧
        out.2.calls.countP Call.isPushNewJob = σ.calls.countP Call.isPushNewJob) ∨
      (∃ σ₃ : State W, σ₃.mem = σ.mem ∧
        σ₃.calls.countP Call.isPushNewJob = σ.calls.countP Call.isPushNewJob ∧
        (((s.config.Proxy.DynamicDifficulty.Enabled && (σ.mem cs).lastShareTime != 0) = true ∧
            out = afterRetarget s cs (retarget s σ₃ cs login (workerOrDefault id)
              (s.ext.currentBlockTemplate σ.world))) ∨
          ((s.config.Proxy.DynamicDifficulty.Enabled && (σ.mem cs).lastShareTime != 0) = false ∧
            out = recordShareTime s σ₃ cs))) := by
  unfold handleSubmitRPC at hout
  simp only [processShare, ApplySharePolicy, ApplyMalformedPolicy, Printf, State.record] at hout
  split_ifs at hout with h1 h2 h3 h4 h5 h6 h7
  · subst hout
    exact Or.inl ⟨_, by simp, rfl, rfl,
      by simp [List.countP_append, List.countP_cons, Call.isPushNewJob]⟩
  · subst hout
    exact Or.inl ⟨_, by simp, rfl, rfl,
      by simp [List.countP_append, List.countP_cons, Call.isPushNewJob]⟩
  · subst hout
    exact Or.inl ⟨_, by simp, rfl, rfl,
      by simp [List.countP_append, List.countP_cons, Call.isPushNewJob]⟩
  · subst hout
    exact Or.inl ⟨_, by simp, rfl, rfl,
      by simp [List.countP_append, List.countP_cons, Call.isPushNewJob]⟩
  · subst hout
    exact Or.inl ⟨_, by simp, rfl, rfl,
      by simp [List.countP_append, List.countP_cons, Call.isPushNewJob]⟩
  · subst hout
    exact Or.inl ⟨_, by simp, rfl, rfl,
      by simp [List.countP_append, List.countP_cons, Call.isPushNewJob]⟩
  · subst hout
    refine Or.inr ⟨_, ?_, ?_, Or.inl ⟨h7, rfl⟩⟩
    · rfl
    · simp [List.countP_append, List.countP_cons, Call.isPushNewJob]
  · subst hout
    refine Or.inr ⟨_, ?_, ?_, Or.inr ⟨by simpa using h7, rfl⟩⟩
    · rfl
    · simp [List.countP_append, List.countP_cons, Call.isPushNewJob]

/-- What `handleSubmitRPC` writes. Login, worker id and address of the session
and all other sessions are never written. A call that returns a reply other
than `(true, nil)` writes nothing and pushes no job; a call that does not return
`(true, nil)` leaves the last share time as it was; a call that returns
`(true, nil)` stores the answer of its last clock reading as the last share
time. With retargeting off, or without a previous share, the difficulty is not
written and no job is pushed. -/
theorem handleSubmitRPC_session_frame (s : ProxyServer W) (σ : State W) (cs : SessionRef)
    (login id : String) (params : List String) :
    (∀ r, r ≠ cs → (handleSubmitRPC s σ cs login id params).2.mem r = σ.mem r) ∧
      ((handleSubmitRPC s σ cs login id params).2.mem cs).login = (σ.mem cs).login ∧
      ((handleSubmitRPC s σ cs login id params).2.mem cs).id = (σ.mem cs).id ∧
      ((handleSubmitRPC s σ cs login id params).2.mem cs).ip = (σ.mem cs).ip ∧
      ((handleSubmitRPC s σ cs login id params).1 ≠ .ret (true, none) →
        ((handleSubmitRPC s σ cs login id params).2.mem cs).lastShareTime
          = (σ.mem cs).lastShareTime) ∧
      (∀ r, (handleSubmitRPC s σ cs login id params).1 = .ret r → r ≠ (true, none) →
        (handleSubmitRPC s σ cs login id params).2.mem = σ.mem ∧
        (handleSubmitRPC s σ cs login id params).2.calls.countP Call.isPushNewJob
          = σ.calls.countP Call.isPushNewJob) ∧
      ((handleSubmitRPC s σ cs login id params).1 = .ret (true, none) →
        ∃ w, ((handleSubmitRPC s σ cs login id params).2.mem cs).lastShareTime
            = (s.ext.MakeTimestamp w).1 ∧
          (handleSubmitRPC s σ cs login id params).2.world = (s.ext.MakeTimestamp w).2) ∧
      ((s.config.Proxy.DynamicDifficulty.Enabled = false ∨ (σ.mem cs).lastShareTime = 0) →
        ((handleSubmitRPC s σ cs login id params).2.mem cs).diff = (σ.mem cs).diff ∧
        (handleSubmitRPC s σ cs login id params).2.calls.countP Call.isPushNewJob
          = σ.calls.countP Call.isPushNewJob) := by
  generalize hout : handleSubmitRPC s σ cs login id params = out
  rcases handleSubmitRPC_shape s σ cs login id params out hout with
    ⟨r, hr, h1, hmem, hpush⟩ | ⟨σ₃, hmem, hpush, ⟨hcond, rfl⟩ | ⟨hcond, rfl⟩⟩
  · refine ⟨?_, ?_, ?_, ?_, ?_, ?_, ?_, ?_⟩
    · intro r' _
      rw [hmem]
    · rw [hmem]
    · rw [hmem]
    · rw [hmem]
    · intro _
      rw [hmem]
    · intro _ _ _
      exact ⟨hmem, hpush⟩
    · intro h
      rw [h1] at h
      cases h
      exact absurd rfl hr
    · intro _
      rw [hmem]
      exact ⟨rfl, hpush⟩
  · obtain ⟨a1, a2, a3, a4, a5, a6, a7⟩ := afterRetarget_session_frame s cs
      (retarget s σ₃ cs login (workerOrDefault id) (s.ext.currentBlockTemplate σ.world))
    obtain ⟨b1, b2, b3, b4, b5⟩ := retarget_session_frame s σ₃ cs login (workerOrDefault id)
      (s.ext.currentBlockTemplate σ.world)
    refine ⟨?_, ?_, ?_, ?_, ?_, ?_, ?_, ?_⟩
    · intro r hr
      rw [a1 r hr, b1 r hr, hmem]
    · rw [a2, b2, hmem]
    · rw [a3, b3, hmem]
    · rw [a4, b4, hmem]
    · intro hne
      rw [a6 hne, b5, hmem]
    · intro r hr hne
      exfalso
      rcases afterRetarget_reply s cs (retarget s σ₃ cs login (workerOrDefault id)
        (s.ext.currentBlockTemplate σ.world)) with h | ⟨e, h⟩
      · rw [h] at hr
        cases hr
        exact hne rfl
      · rw [h] at hr
        cases hr
    · intro hr
      exact ⟨_, a7 hr⟩
    · intro hoff
      exfalso
      rcases hoff with hoff | hoff
      · simp [hoff] at hcond
      · simp [hoff] at hcond
  · obtain ⟨c1, c2, c3, c4⟩ := recordShareTime_state s σ₃ cs
    refine ⟨?_, ?_, ?_, ?_, ?_, ?_, ?_, ?_⟩
    · intro r hr
      rw [c1, hmem]
      simp [hr]
    · rw [c1, hmem]
      simp
    · rw [c1, hmem]
      simp
    · rw [c1, hmem]
      simp
    · intro hne
      exact absurd (recordShareTime_reply s σ₃ cs) hne
    · intro r hr hne
      rw [recordShareTime_reply] at hr
      cases hr
      exact absurd rfl hne
    · intro _
      refine ⟨σ₃.world, ?_, c2⟩
      rw [c1]
      simp
    · intro _
      rw [c1, hmem, c4, hpush]
      simp

/-! ## The first share, and retargeting switched off -/

/-- C13. On a fully accepted share of a session without a previous share
(`lastShareTime = 0`), with retargeting on or off, `handleSubmitRPC` returns
`(true, nil)`, leaves the difficulty as it was, pushes no job and stores the
current time stamp as the last share time. With retargeting off no submit
changes the difficulty or pushes a job. -/
theorem first_share_never_retargets (s : ProxyServer W) (σ : State W) (cs : SessionRef)
    (login id : String) (params : List String) :
    (∀ (nonce mix result : String) (w₁ w₂ w₃ : W) (now : Int),
      params = [nonce, mix, result] →
      noncePattern nonce = true → hashPattern mix = true → hashPattern result = true →
      s.ext.processShare σ.world login (workerOrDefault id)
        (σ.mem cs).ip (toInt64 (s.ext.TargetHexToDiff (σ.mem cs).diff))
        (s.ext.currentBlockTemplate σ.world) [nonce, mix, result] = ((false, true), w₁) →
      s.ext.ApplySharePolicy w₁ (σ.mem cs).ip (!false && true) = (true, w₂) →
      s.ext.MakeTimestamp w₂ = (now, w₃) →
      (σ.mem cs).lastShareTime = 0 →
      (handleSubmitRPC s σ cs login id params).1 = .ret (true, none) ∧
        ((handleSubmitRPC s σ cs login id params).2.mem cs).diff = (σ.mem cs).diff ∧
        (handleSubmitRPC s σ cs login id params).2.calls.countP Call.isPushNewJob
          = σ.calls.countP Call.isPushNewJob ∧
        ((handleSubmitRPC s σ cs login id params).2.mem cs).lastShareTime = now) ∧
    (s.config.Proxy.DynamicDifficulty.Enabled = false →
      ((handleSubmitRPC s σ cs login id params).2.mem cs).diff = (σ.mem cs).diff ∧
        (handleSubmitRPC s σ cs login id params).2.calls.countP Call.isPushNewJob
          = σ.calls.countP Call.isPushNewJob) := by
  constructor
  · rintro nonce mix result w₁ w₂ w₃ now rfl hnonce hmix hresult hshare hpolicy hnow hfirst
    have hframe := (handleSubmitRPC_session_frame s σ cs login id [nonce, mix, result]).2.2.2.2.2.2.2
      (Or.inr hfirst)
    refine ⟨?_, hframe.1, hframe.2, ?_⟩
    · rw [handleSubmitRPC_accepted s σ cs login id nonce mix result w₁ w₂ hnonce hmix hresult
        hshare hpolicy]
      simp [hfirst, recordShareTime_reply]
    · rw [handleSubmitRPC_accepted s σ cs login id nonce mix result w₁ w₂ hnonce hmix hresult
        hshare hpolicy]
      have hcond : ¬(s.config.Proxy.DynamicDifficulty.Enabled && (σ.mem cs).lastShareTime != 0)
          = true := by
        simp [hfirst]
      rw [if_neg hcond, (recordShareTime_state s _ cs).1]
      simp [(acceptedState_fields s σ cs login id [nonce, mix, result] w₂).2.2.1, hnow]
  · intro hoff
    exact (handleSubmitRPC_session_frame s σ cs login id params).2.2.2.2.2.2.2 (Or.inl hoff)

set_option maxRecDepth 100000 in
/-- C13, at concrete inputs: the first share of a session at time 5000 with
retargeting on, and a later share with retargeting off. -/
theorem first_share_never_retargets_witness :
    ((vardiffState 5000 4000000000 0).mem 0).lastShareTime = 0 ∧
      (handleSubmitRPC (vardiffServer (some sampleTemplate)) (vardiffState 5000 4000000000 0) 0
          "0xabcdef0123456789abcdef0123456789abcdef01" "rig1"
          [sampleNonce, sampleHash, sampleHash]).1 = .ret (true, none) ∧
      ((handleSubmitRPC (vardiffServer (some sampleTemplate)) (vardiffState 5000 4000000000 0) 0
          "0xabcdef0123456789abcdef0123456789abcdef01" "rig1"
          [sampleNonce, sampleHash, sampleHash]).2.mem 0).diff
        = ((vardiffState 5000 4000000000 0).mem 0).diff ∧
      ((handleSubmitRPC (vardiffServer (some sampleTemplate)) (vardiffState 5000 4000000000 0) 0
          "0xabcdef0123456789abcdef0123456789abcdef01" "rig1"
          [sampleNonce, sampleHash, sampleHash]).2.mem 0).lastShareTime = 5000 ∧
      ((handleSubmitRPC (sampleServer false false true true false (some sampleTemplate))
          (minerState 4000 3000) 0 "0xabcdef0123456789abcdef0123456789abcdef01" "rig1"
          [sampleNonce, sampleHash, sampleHash]).2.mem 0).diff
        = ((minerState 4000 3000).mem 0).diff :=
  ⟨rfl,
    ((first_share_never_retargets (vardiffServer (some sampleTemplate))
      (vardiffState 5000 4000000000 0) 0 "0xabcdef0123456789abcdef0123456789abcdef01" "rig1"
      [sampleNonce, sampleHash, sampleHash]).1 sampleNonce sampleHash sampleHash 5000 5000 5000
      5000 rfl (by decide) (by decide) (by decide) rfl rfl rfl rfl).1,
    ((first_share_never_retargets (vardiffServer (some sampleTemplate))
      (vardiffState 5000 4000000000 0) 0 "0xabcdef0123456789abcdef0123456789abcdef01" "rig1"
      [sampleNonce, sampleHash, sampleHash]).1 sampleNonce sampleHash sampleHash 5000 5000 5000
      5000 rfl (by decide) (by decide) (by decide) rfl rfl rfl rfl).2.1,
    ((first_share_never_retargets (vardiffServer (some sampleTemplate))
      (vardiffState 5000 4000000000 0) 0 "0xabcdef0123456789abcdef0123456789abcdef01" "rig1"
      [sampleNonce, sampleHash, sampleHash]).1 sampleNonce sampleHash sampleHash 5000 5000 5000
      5000 rfl (by decide) (by decide) (by decide) rfl rfl rfl rfl).2.2.2,
    ((first_share_never_retargets (sampleServer false false true true false (some sampleTemplate))
      (minerState 4000 3000) 0 "0xabcdef0123456789abcdef0123456789abcdef01" "rig1"
      [sampleNonce, sampleHash, sampleHash]).2 rfl).1⟩

/-! ## Panics of the retarget step -/

/-- C14. The code does not meet the claim. On a fully accepted share with
retargeting on and a previous share, when the current time stamp equals the
last share time, `handleSubmitRPC` returns no reply: it panics with an integer
division by zero in the rate computation, before anything is written to the
session. -/
theorem zero_interval_panics (s : ProxyServer W) (σ : State W) (cs : SessionRef)
    (login id nonce mix result : String) (w₁ w₂ w₃ : W) (now : Int)
    (hnonce : noncePattern nonce = true) (hmix : hashPattern mix = true)
    (hresult : hashPattern result = true)
    (hshare : s.ext.processShare σ.world login (workerOrDefault id)
      (σ.mem cs).ip (toInt64 (s.ext.TargetHexToDiff (σ.mem cs).diff))
      (s.ext.currentBlockTemplate σ.world) [nonce, mix, result] = ((false, true), w₁))
    (hpolicy : s.ext.ApplySharePolicy w₁ (σ.mem cs).ip (!false && true) = (true, w₂))
    (henabled : s.config.Proxy.DynamicDifficulty.Enabled = true)
    (hlast : (σ.mem cs).lastShareTime ≠ 0)
    (hnow : s.ext.MakeTimestamp w₂ = (now, w₃))
    (hsame : now = (σ.mem cs).lastShareTime) :
    (handleSubmitRPC s σ cs login id [nonce, mix, result]).1 = .panic .integerDivideByZero ∧
      (handleSubmitRPC s σ cs login id [nonce, mix, result]).2.mem = σ.mem := by
  rw [handleSubmitRPC_accepted s σ cs login id nonce mix result w₁ w₂ hnonce hmix hresult
    hshare hpolicy]
  have hcond : (s.config.Proxy.DynamicDifficulty.Enabled && (σ.mem cs).lastShareTime != 0)
      = true := by
    simp [henabled, hlast]
  rw [if_pos hcond]
  have hz : toInt64 ((s.ext.MakeTimestamp
      (acceptedState s σ cs login id [nonce, mix, result] w₂).world).1 -
      ((acceptedState s σ cs login id [nonce, mix, result] w₂).mem cs).lastShareTime) = 0 := by
    show toInt64 ((s.ext.MakeTimestamp w₂).1 - (σ.mem cs).lastShareTime) = 0
    rw [hnow, hsame]
    simp [toInt64]
  rw [retarget_zero s _ cs login _ _ hz, afterRetarget_panic s cs _ _ rfl]
  exact ⟨rfl, rfl⟩

set_option maxRecDepth 100000 in
/-- C14, at the failing input: a share accepted at time 3000 from a session
whose last share was accepted at time 3000. -/
theorem zero_interval_panics_witness :
    ((vardiffState 3000 4000000000 3000).mem 0).lastShareTime ≠ 0 ∧
      (handleSubmitRPC (vardiffServer (some sampleTemplate)) (vardiffState 3000 4000000000 3000)
          0 "0xabcdef0123456789abcdef0123456789abcdef01" "rig1"
          [sampleNonce, sampleHash, sampleHash]).1 = .panic .integerDivideByZero :=
  ⟨by decide,
    (zero_interval_panics (vardiffServer (some sampleTemplate))
      (vardiffState 3000 4000000000 3000) 0 "0xabcdef0123456789abcdef0123456789abcdef01" "rig1"
      sampleNonce sampleHash sampleHash 3000 3000 3000 3000 (by decide) (by decide) (by decide)
      rfl rfl rfl (by decide) rfl rfl).1⟩

/-- C17. The code does not meet the claim. On a fully accepted share with
retargeting on, a previous share and a non-zero interval, a login of fewer than
ten bytes makes `handleSubmitRPC` panic in `login[0:10]`: it returns no reply,
after the new difficulty was written to the session and before any job is
pushed. -/
theorem short_login_panics (s : ProxyServer W) (σ : State W) (cs : SessionRef)
    (login id nonce mix result : String) (w₁ w₂ w₃ : W) (now : Int)
    (hnonce : noncePattern nonce = true) (hmix : hashPattern mix = true)
    (hresult : hashPattern result = true)
    (hshare : s.ext.processShare σ.world login (workerOrDefault id)
      (σ.mem cs).ip (toInt64 (s.ext.TargetHexToDiff (σ.mem cs).diff))
      (s.ext.currentBlockTemplate σ.world) [nonce, mix, result] = ((false, true), w₁))
    (hpolicy : s.ext.ApplySharePolicy w₁ (σ.mem cs).ip (!false && true) = (true, w₂))
    (henabled : s.config.Proxy.DynamicDifficulty.Enabled = true)
    (hlast : (σ.mem cs).lastShareTime ≠ 0)
    (hnow : s.ext.MakeTimestamp w₂ = (now, w₃))
    (hd : toInt64 (now - (σ.mem cs).lastShareTime) ≠ 0)
    (hshort : login.utf8ByteSize < 10) :
    (handleSubmitRPC s σ cs login id [nonce, mix, result]).1 = .panic .sliceBoundsOutOfRange ∧
      ((handleSubmitRPC s σ cs login id [nonce, mix, result]).2.mem cs).diff =
        s.ext.GetTargetHex (scaleDiff (toInt64 (s.ext.TargetHexToDiff (σ.mem cs).diff))
          (factorFor s.config.Proxy.DynamicDifficulty
            (toInt64 (now - (σ.mem cs).lastShareTime)))) := by
  obtain ⟨h1, h2⟩ := handleSubmitRPC_retargeted s σ cs login id nonce mix result w₁ w₂ w₃ now
    hnonce hmix hresult hshare hpolicy henabled hlast hnow hd
  rw [if_pos hshort] at h2
  exact ⟨h2, h1⟩

set_option maxRecDepth 100000 in
/-- C17, at the failing input: the direct form called with the login `0xabc`,
2000 ms after the last share of the session. -/
theorem short_login_panics_witness :
    toInt64 (5000 - 3000) ≠ 0 ∧ ("0xabc" : String).utf8ByteSize < 10 ∧
      (handleSubmitRPC (vardiffServer (some sampleTemplate)) (vardiffState 5000 4000000000 3000)
          0 "0xabc" "rig1" [sampleNonce, sampleHash, sampleHash]).1
        = .panic .sliceBoundsOutOfRange :=
  ⟨by decide, by decide,
    (short_login_panics (vardiffServer (some sampleTemplate))
      (vardiffState 5000 4000000000 3000) 0 "0xabc" "rig1"
      sampleNonce sampleHash sampleHash 5000 5000 5000 5000 (by decide) (by decide) (by decide)
      rfl rfl rfl (by decide) rfl (by decide) (by decide)).1⟩

/-- From a difficulty of at least 2 and below `2^50` each of the three factors
gives a difficulty of at least 1. -/
theorem scaleDiff_pos (D : Int) (h2 : 2 ≤ D) (h : D < 2 ^ 50) (f : Factor) :
    1 ≤ scaleDiff D f := by
  have hD : D.natAbs < 2 ^ 50 := by
    norm_num at h ⊢
    omega
  obtain ⟨hup, hdown, hsame⟩ := scaleDiff_exact D hD
  cases f
  · rw [hup, Int.tdiv_eq_ediv (by omega) (by norm_num)]
    omega
  · rw [hdown, Int.tdiv_eq_ediv (by omega) (by norm_num)]
    omega
  · rw [hsame]
    omega

/-- C18. The code does not meet the claim. On a fully accepted share with
retargeting on, a previous share and a non-zero interval whose rate is below
`MinSubmitRate`, a session whose difficulty has the integer form 1 is given the
difficulty `GetTargetHex(0)`: the product of 1 and `0.8` truncates to 0. The
difficulty 2 goes to 1 in the same way, so two such shares in a row take it
to 0. From a difficulty of at least 2 and below `2^50` one step gives at
least 1. -/
theorem retarget_reaches_zero (s : ProxyServer W) (σ : State W) (cs : SessionRef)
    (login id nonce mix result : String) (w₁ w₂ w₃ : W) (now : Int)
    (hnonce : noncePattern nonce = true) (hmix : hashPattern mix = true)
    (hresult : hashPattern result = true)
    (hshare : s.ext.processShare σ.world login (workerOrDefault id)
      (σ.mem cs).ip (toInt64 (s.ext.TargetHexToDiff (σ.mem cs).diff))
      (s.ext.currentBlockTemplate σ.world) [nonce, mix, result] = ((false, true), w₁))
    (hpolicy : s.ext.ApplySharePolicy w₁ (σ.mem cs).ip (!false && true) = (true, w₂))
    (henabled : s.config.Proxy.DynamicDifficulty.Enabled = true)
    (hlast : (σ.mem cs).lastShareTime ≠ 0)
    (hnow : s.ext.MakeTimestamp w₂ = (now, w₃))
    (hd : toInt64 (now - (σ.mem cs).lastShareTime) ≠ 0)
    (hmax : Int.tdiv 60000 (toInt64 (now - (σ.mem cs).lastShareTime))
      ≤ s.config.Proxy.DynamicDifficulty.MaxSubmitRate)
    (hmin : Int.tdiv 60000 (toInt64 (now - (σ.mem cs).lastShareTime))
      < s.config.Proxy.DynamicDifficulty.MinSubmitRate)
    (hone : toInt64 (s.ext.TargetHexToDiff (σ.mem cs).diff) = 1) :
    ((handleSubmitRPC s σ cs login id [nonce, mix, result]).2.mem cs).diff
        = s.ext.GetTargetHex 0 ∧
      scaleDiff 1 .down = 0 ∧ scaleDiff 2 .down = 1 ∧
      ∀ (D : Int) (f : Factor), 2 ≤ D → D < 2 ^ 50 → 1 ≤ scaleDiff D f := by
  have h := (handleSubmitRPC_retargeted s σ cs login id nonce mix result w₁ w₂ w₃ now hnonce
    hmix hresult hshare hpolicy henabled hlast hnow hd).1
  have hf : factorFor s.config.Proxy.DynamicDifficulty
      (toInt64 (now - (σ.mem cs).lastShareTime)) = Factor.down := by
    unfold factorFor
    norm_num
    rw [if_neg (by omega), if_pos hmin]
  rw [hf, hone] at h
  exact ⟨h, by decide, by decide, fun D f h2 h50 => scaleDiff_pos D h2 h50 f⟩

set_option maxRecDepth 100000 in
/-- C18, at the failing input: a session with difficulty 1 whose share comes
10000 ms after the last one (rate 6, below the minimum 20); the share is
acknowledged and the session is left with the encoding of difficulty 0. -/
theorem retarget_reaches_zero_witness :
    toInt64 (sampleTargetHexToDiff (sampleGetTargetHex 1)) = 1 ∧
      Int.tdiv 60000 (toInt64 (13000 - 3000)) < (20 : Int) ∧
      (handleSubmitRPC (vardiffServer (some sampleTemplate)) (vardiffState 13000 1 3000)
          0 "0xabcdef0123456789abcdef0123456789abcdef01" "rig1"
          [sampleNonce, sampleHash, sampleHash]).1 = .ret (true, none) ∧
      ((handleSubmitRPC (vardiffServer (some sampleTemplate)) (vardiffState 13000 1 3000)
          0 "0xabcdef0123456789abcdef0123456789abcdef01" "rig1"
          [sampleNonce, sampleHash, sampleHash]).2.mem 0).diff = sampleGetTargetHex 0 :=
  ⟨by decide, by decide, by decide,
    (retarget_reaches_zero (vardiffServer (some sampleTemplate))
      (vardiffState 13000 1 3000) 0 "0xabcdef0123456789abcdef0123456789abcdef01" "rig1"
      sampleNonce sampleHash sampleHash 13000 13000 13000 13000 (by decide) (by decide)
      (by decide) rfl rfl rfl (by decide) rfl (by decide) (by decide) (by decide)
      (by decide)).1⟩

/-- C20. The code does not meet the claim. On a fully accepted share with
retargeting on, a previous share, a non-zero interval and a login of at least
ten bytes, when `currentBlockTemplate()` returned no template `handleSubmitRPC`
returns no reply: it panics reading `t.Header` through the nil template, after
the new difficulty was written to the session. -/
theorem nil_template_panics (s : ProxyServer W) (σ : State W) (cs : SessionRef)
    (login id nonce mix result : String) (w₁ w₂ w₃ : W) (now : Int)
    (hnonce : noncePattern nonce = true) (hmix : hashPattern mix = true)
    (hresult : hashPattern result = true)
    (hshare : s.ext.processShare σ.world login (workerOrDefault id)
      (σ.mem cs).ip (toInt64 (s.ext.TargetHexToDiff (σ.mem cs).diff))
      (s.ext.currentBlockTemplate σ.world) [nonce, mix, result] = ((false, true), w₁))
    (hpolicy : s.ext.ApplySharePolicy w₁ (σ.mem cs).ip (!false && true) = (true, w₂))
    (henabled : s.config.Proxy.DynamicDifficulty.Enabled = true)
    (hlast : (σ.mem cs).lastShareTime ≠ 0)
    (hnow : s.ext.MakeTimestamp w₂ = (now, w₃))
    (hd : toInt64 (now - (σ.mem cs).lastShareTime) ≠ 0)
    (hlong : ¬login.utf8ByteSize < 10)
    (hnil : s.ext.currentBlockTemplate σ.world = none) :
    (handleSubmitRPC s σ cs login id [nonce, mix, result]).1 = .panic .nilPointerDereference ∧
      ((handleSubmitRPC s σ cs login id [nonce, mix, result]).2.mem cs).diff =
        s.ext.GetTargetHex (scaleDiff (toInt64 (s.ext.TargetHexToDiff (σ.mem cs).diff))
          (factorFor s.config.Proxy.DynamicDifficulty
            (toInt64 (now - (σ.mem cs).lastShareTime)))) := by
  obtain ⟨h1, h2⟩ := handleSubmitRPC_retargeted s σ cs login id nonce mix result w₁ w₂ w₃ now
    hnonce hmix hresult hshare hpolicy henabled hlast hnow hd
  rw [if_neg hlong, if_pos hnil] at h2
  exact ⟨h2, h1⟩

set_option maxRecDepth 100000 in
/-- C20, at the failing input: no template, a share that the share engine
accepts and the policy allows, 2000 ms after the last share of the session. -/
theorem nil_template_panics_witness :
    (vardiffServer none).ext.currentBlockTemplate (vardiffState 5000 4000000000 3000).world
        = none ∧
      (handleSubmitRPC (vardiffServer none) (vardiffState 5000 4000000000 3000)
          0 "0xabcdef0123456789abcdef0123456789abcdef01" "rig1"
          [sampleNonce, sampleHash, sampleHash]).1 = .panic .nilPointerDereference ∧
      (handleGetWorkRPC (vardiffServer none) (vardiffState 5000 4000000000 3000) 0).1
        = (none, some ⟨0, "Work not ready"⟩) ∧
      (handleGetBlockByNumberRPC (vardiffServer none) (vardiffState 5000 4000000000 3000)).1
        = none :=
  ⟨rfl,
    (nil_template_panics (vardiffServer none)
      (vardiffState 5000 4000000000 3000) 0 "0xabcdef0123456789abcdef0123456789abcdef01" "rig1"
      sampleNonce sampleHash sampleHash 5000 5000 5000 5000 (by decide) (by decide) (by decide)
      rfl rfl rfl (by decide) rfl (by decide) (by decide) rfl).1,
    by decide, by decide⟩

/-! ## The worker id -/

/-- The retarget step only adds calls. -/
theorem retarget_calls_extend (s : ProxyServer W) (σ : State W) (cs : SessionRef)
    (login id : String) (t : Option BlockTemplate) :
    ∃ rest, (retarget s σ cs login id t).2.calls = σ.calls ++ rest := by
  unfold retarget
  simp only [MakeTimestamp, pushNewJob, Printf, State.record, State.store]
  split_ifs <;> (try split) <;> (try split) <;>
    simp only [List.append_assoc] <;> exact ⟨_, rfl⟩

/-- What follows the retarget step only adds calls. -/
theorem afterRetarget_calls_extend (s : ProxyServer W) (cs : SessionRef)
    (x : Outcome Unit × State W) :
    ∃ rest, (afterRetarget s cs x).2.calls = x.2.calls ++ rest := by
  rcases x with ⟨_ | e, σ₄⟩
  · exact ⟨_, (recordShareTime_state s σ₄ cs).2.2.1⟩
  · exact ⟨[], by simp [afterRetarget]⟩

/-- On a well-formed submit the first call is to the share engine, with the
worker id after the fallback. -/
theorem handleSubmitRPC_first_call (s : ProxyServer W) (σ : State W) (cs : SessionRef)
    (login id nonce mix result : String)
    (hnonce : noncePattern nonce = true) (hmix : hashPattern mix = true)
    (hresult : hashPattern result = true) :
    ∃ rest, (handleSubmitRPC s σ cs login id [nonce, mix, result]).2.calls = σ.calls ++
      Call.processShare login (workerOrDefault id) (σ.mem cs).ip
        (toInt64 (s.ext.TargetHexToDiff (σ.mem cs).diff))
        (s.ext.currentBlockTemplate σ.world) [nonce, mix, result] :: rest := by
  have key : ∀ (exist valid allowed : Bool) (w₁ w₂ : W),
      s.ext.processShare σ.world login (workerOrDefault id)
        (σ.mem cs).ip (toInt64 (s.ext.TargetHexToDiff (σ.mem cs).diff))
        (s.ext.currentBlockTemplate σ.world) [nonce, mix, result] = ((exist, valid), w₁) →
      s.ext.ApplySharePolicy w₁ (σ.mem cs).ip (!exist && valid) = (allowed, w₂) →
      ∃ rest, (handleSubmitRPC s σ cs login id [nonce, mix, result]).2.calls = σ.calls ++
        Call.processShare login (workerOrDefault id) (σ.mem cs).ip
          (toInt64 (s.ext.TargetHexToDiff (σ.mem cs).diff))
          (s.ext.currentBlockTemplate σ.world) [nonce, mix, result] :: rest := by
    intro exist valid allowed w₁ w₂ hshare hpolicy
    rw [handleSubmitRPC_wellFormed s σ cs login id nonce mix result exist valid allowed w₁ w₂
      hnonce hmix hresult hshare hpolicy]
    rcases exist with _ | _
    · rcases valid with _ | _
      · exact ⟨_, by simp [Printf, State.record, afterShare]; rfl⟩
      · rcases allowed with _ | _
        · exact ⟨_, by simp [Printf, State.record, afterShare]; rfl⟩
        · simp only [Bool.false_eq_true, if_false, Bool.not_true]
          split_ifs
          · obtain ⟨r₁, h₁⟩ := afterRetarget_calls_extend s cs
              (retarget s (Printf (Printf (afterShare s σ cs login id [nonce, mix, result] true w₂)
                .Info "Valid share from %s.%s@%s"
                [.str login, .str (workerOrDefault id), .str (σ.mem cs).ip]) .ShareLog
                "Valid share from %s.%s@%s"
                [.str login, .str (workerOrDefault id), .str (σ.mem cs).ip]) cs login
                (workerOrDefault id) (s.ext.currentBlockTemplate σ.world))
            obtain ⟨r₂, h₂⟩ := retarget_calls_extend s
              (Printf (Printf (afterShare s σ cs login id [nonce, mix, result] true w₂)
                .Info "Valid share from %s.%s@%s"
                [.str login, .str (workerOrDefault id), .str (σ.mem cs).ip]) .ShareLog
                "Valid share from %s.%s@%s"
                [.str login, .str (workerOrDefault id), .str (σ.mem cs).ip]) cs login
                (workerOrDefault id) (s.ext.currentBlockTemplate σ.world)
            refine ⟨Call.ApplySharePolicy (σ.mem cs).ip true ::
              Call.Printf .Info "Valid share from %s.%s@%s"
                [.str login, .str (workerOrDefault id), .str (σ.mem cs).ip] ::
              Call.Printf .ShareLog "Valid share from %s.%s@%s"
                [.str login, .str (workerOrDefault id), .str (σ.mem cs).ip] :: (r₂ ++ r₁), ?_⟩
            rw [h₁, h₂]
            simp [Printf, State.record, afterShare]
          · refine ⟨[Call.ApplySharePolicy (σ.mem cs).ip true,
              Call.Printf .Info "Valid share from %s.%s@%s"
                [.str login, .str (workerOrDefault id), .str (σ.mem cs).ip],
              Call.Printf .ShareLog "Valid share from %s.%s@%s"
                [.str login, .str (workerOrDefault id), .str (σ.mem cs).ip],
              Call.MakeTimestamp], ?_⟩
            rw [(recordShareTime_state s _ cs).2.2.1]
            simp [Printf, State.record, afterShare]
    · exact ⟨_, by simp [Printf, State.record, afterShare]; rfl⟩
  exact key _ _ _ _ _ rfl rfl

/-- C15. A worker id that does not match `workerPattern` gives exactly the
result of the id `"0"`: the same reply, the same calls, among them the call
to the share engine with worker id `"0"`, and the same state. An id that
matches the pattern is handed to the share engine unchanged. -/
theorem worker_id_fallback (s : ProxyServer W) (σ : State W) (cs : SessionRef)
    (login id : String) (params : List String) :
    (workerPattern id = false →
      handleSubmitRPC s σ cs login id params = handleSubmitRPC s σ cs login "0" params) ∧
    (∀ nonce mix result, params = [nonce, mix, result] →
      noncePattern nonce = true → hashPattern mix = true → hashPattern result = true →
      ∃ rest, (handleSubmitRPC s σ cs login id params).2.calls = σ.calls ++
        Call.processShare login (if workerPattern id = true then id else "0") (σ.mem cs).ip
          (toInt64 (s.ext.TargetHexToDiff (σ.mem cs).diff))
          (s.ext.currentBlockTemplate σ.world) params :: rest) := by
  constructor
  · intro h
    have h1 : workerOrDefault id = "0" := by simp [workerOrDefault, h]
    have h2 : workerOrDefault "0" = "0" := by decide
    simp only [handleSubmitRPC, h1, h2]
  · rintro nonce mix result rfl hnonce hmix hresult
    have h := handleSubmitRPC_first_call s σ cs login id nonce mix result hnonce hmix hresult
    have hw : workerOrDefault id = if workerPattern id = true then id else "0" := by
      unfold workerOrDefault
      cases workerPattern id <;> simp
    rw [hw] at h
    exact h

/-- C15, at concrete inputs: the empty id, an id with a blank and an id of 65
characters do not match and give the result of the id `"0"`; the id `rig-1_A`
matches. -/
theorem worker_id_fallback_witness :
    workerPattern "" = false ∧ workerPattern "rig 1" = false ∧
      workerPattern "aaaaaaaaaaaaaaaaaaaaaaaaaaaaaaaaaaaaaaaaaaaaaaaaaaaaaaaaaaaaaaaaa" = false ∧
      workerPattern "rig-1_A" = true ∧
      handleSubmitRPC (sampleServer true false true true false (some sampleTemplate))
          (minerState 5000 3000) 0 "0xabcdef0123456789abcdef0123456789abcdef01" "rig 1"
          [sampleNonce, sampleHash, sampleHash]
        = handleSubmitRPC (sampleServer true false true true false (some sampleTemplate))
          (minerState 5000 3000) 0 "0xabcdef0123456789abcdef0123456789abcdef01" "0"
          [sampleNonce, sampleHash, sampleHash] :=
  ⟨by decide, by decide, by decide, by decide,
    (worker_id_fallback (sampleServer true false true true false (some sampleTemplate))
      (minerState 5000 3000) 0 "0xabcdef0123456789abcdef0123456789abcdef01" "rig 1"
      [sampleNonce, sampleHash, sampleHash]).1 (by decide)⟩

/-- C16, as stated, fails: a login with the request id `rig 1!` succeeds and
the session stores `rig 1!`, which does not match the worker pattern and is not
`"0"`; a login with an empty request id stores the empty id. -/
theorem login_worker_id_counterexample :
    (handleLoginRPC (sampleServer true false true true false none) (freshState 0) 0
        ["0xABCDEF0123456789ABCDEF0123456789ABCDEF01"] "rig 1!").1 = (true, none) ∧
      ((handleLoginRPC (sampleServer true false true true false none) (freshState 0) 0
        ["0xABCDEF0123456789ABCDEF0123456789ABCDEF01"] "rig 1!").2.mem 0).id = "rig 1!" ∧
      workerPattern "rig 1!" = false ∧ "rig 1!" ≠ "0" ∧
      ((handleLoginRPC (sampleServer true false true true false none) (freshState 0) 0
        ["0xABCDEF0123456789ABCDEF0123456789ABCDEF01"] "").2.mem 0).id = "" ∧
      workerPattern "" = false := by
  decide

/-- C16, amended. After a successful login the worker id stored in the session
is the request id as it was given: it matches the worker pattern or equals
`"0"` exactly when the request id does. -/
theorem login_stores_request_id (s : ProxyServer W) (σ : State W) (cs : SessionRef)
    (params : List String) (id : String)
    (hok : (handleLoginRPC s σ cs params id).1 = (true, none)) :
    ((handleLoginRPC s σ cs params id).2.mem cs).id = id ∧
      ((workerPattern ((handleLoginRPC s σ cs params id).2.mem cs).id = true ∨
          ((handleLoginRPC s σ cs params id).2.mem cs).id = "0") ↔
        (workerPattern id = true ∨ id = "0")) := by
  have hid : ((handleLoginRPC s σ cs params id).2.mem cs).id = id := by
    cases params with
    | nil => simp [handleLoginRPC] at hok
    | cons p0 rest =>
      cases hv : s.ext.IsValidHexAddress (ToLower s.ext.unicodeToLower p0) <;>
        cases hp : (s.ext.ApplyLoginPolicy σ.world (ToLower s.ext.unicodeToLower p0)
          (σ.mem cs).ip).1 <;>
        simp [handleLoginRPC, ApplyLoginPolicy, hv, hp] at hok
      simp [handleLoginRPC, ApplyLoginPolicy, hv, hp, registerSession, Printf, State.record,
        State.store]
  rw [hid]
  exact ⟨rfl, Iff.rfl⟩

/-- C16 amended, at concrete inputs: the valid id `rig1` and the invalid id
`rig 1!` are both stored as given. -/
theorem login_stores_request_id_witness :
    (handleLoginRPC (sampleServer true false true true false none) (freshState 0) 0
        ["0xABCDEF0123456789ABCDEF0123456789ABCDEF01"] "rig 1!").1 = (true, none) ∧
      ((handleLoginRPC (sampleServer true false true true false none) (freshState 0) 0
        ["0xABCDEF0123456789ABCDEF0123456789ABCDEF01"] "rig 1!").2.mem 0).id = "rig 1!" ∧
      ((handleLoginRPC (sampleServer true false true true false none) (freshState 0) 0
        ["0xABCDEF0123456789ABCDEF0123456789ABCDEF01"] "rig1").2.mem 0).id = "rig1" :=
  ⟨by decide,
    (login_stores_request_id (sampleServer true false true true false none) (freshState 0) 0
      ["0xABCDEF0123456789ABCDEF0123456789ABCDEF01"] "rig 1!" (by decide)).1,
    (login_stores_request_id (sampleServer true false true true false none) (freshState 0) 0
      ["0xABCDEF0123456789ABCDEF0123456789ABCDEF01"] "rig1" (by decide)).1⟩

/-! ## Only an acknowledged share writes the session -/

/-- C19. A call of `handleSubmitRPC` that returns a reply other than
`(true, nil)` leaves every session, so login, worker id, address, difficulty
and last share time of the session, as it was and pushes no job. The last share
time is written exactly by the calls that return `(true, nil)`, which store the
answer of their last clock reading; every other call, a panicking one
included, leaves it as it was. Login, worker id and address of the session are
not written by any call. -/
theorem only_accepted_share_mutates (s : ProxyServer W) (σ : State W) (cs : SessionRef)
    (login id : String) (params : List String) :
    (∀ r, (handleSubmitRPC s σ cs login id params).1 = .ret r → r ≠ (true, none) →
      (handleSubmitRPC s σ cs login id params).2.mem = σ.mem ∧
        (handleSubmitRPC s σ cs login id params).2.mem cs = σ.mem cs ∧
        (handleSubmitRPC s σ cs login id params).2.calls.countP Call.isPushNewJob
          = σ.calls.countP Call.isPushNewJob) ∧
    ((handleSubmitRPC s σ cs login id params).1 = .ret (true, none) →
      ∃ w, ((handleSubmitRPC s σ cs login id params).2.mem cs).lastShareTime
          = (s.ext.MakeTimestamp w).1 ∧
        (handleSubmitRPC s σ cs login id params).2.world = (s.ext.MakeTimestamp w).2) ∧
    ((handleSubmitRPC s σ cs login id params).1 ≠ .ret (true, none) →
      ((handleSubmitRPC s σ cs login id params).2.mem cs).lastShareTime
        = (σ.mem cs).lastShareTime) ∧
    ((handleSubmitRPC s σ cs login id params).2.mem cs).login = (σ.mem cs).login ∧
    ((handleSubmitRPC s σ cs login id params).2.mem cs).id = (σ.mem cs).id ∧
    ((handleSubmitRPC s σ cs login id params).2.mem cs).ip = (σ.mem cs).ip ∧
    (∀ r, r ≠ cs → (handleSubmitRPC s σ cs login id params).2.mem r = σ.mem r) := by
  obtain ⟨f1, f2, f3, f4, f5, f6, f7, -⟩ := handleSubmitRPC_session_frame s σ cs login id params
  refine ⟨?_, f7, f5, f2, f3, f4, f1⟩
  intro r hr hne
  obtain ⟨hmem, hpush⟩ := f6 r hr hne
  exact ⟨hmem, by rw [hmem], hpush⟩

set_option maxRecDepth 100000 in
/-- C19, at concrete inputs: a wrong arity, a malformed digest, a duplicate, an
invalid share and a valid share from a denied address leave the session as it
was; an acknowledged share stores the time 5000. -/
theorem only_accepted_share_mutates_witness :
    (handleSubmitRPC (sampleServer true false true true false (some sampleTemplate))
        (minerState 5000 3000) 0 "0xabcdef0123456789abcdef0123456789abcdef01" "rig1"
        []).2.mem 0 = minerSession 3000 ∧
      (handleSubmitRPC (sampleServer true false true true false (some sampleTemplate))
        (minerState 5000 3000) 0 "0xabcdef0123456789abcdef0123456789abcdef01" "rig1"
        [sampleNonce, upperCaseHash, sampleHash]).2.mem 0 = minerSession 3000 ∧
      (handleSubmitRPC (sampleServer true true true true false (some sampleTemplate))
        (minerState 5000 3000) 0 "0xabcdef0123456789abcdef0123456789abcdef01" "rig1"
        [sampleNonce, sampleHash, sampleHash]).2.mem 0 = minerSession 3000 ∧
      (handleSubmitRPC (sampleServer true false false true false (some sampleTemplate))
        (minerState 5000 3000) 0 "0xabcdef0123456789abcdef0123456789abcdef01" "rig1"
        [sampleNonce, sampleHash, sampleHash]).2.mem 0 = minerSession 3000 ∧
      (handleSubmitRPC (sampleServer true false true false false (some sampleTemplate))
        (minerState 5000 3000) 0 "0xabcdef0123456789abcdef0123456789abcdef01" "rig1"
        [sampleNonce, sampleHash, sampleHash]).2.mem 0 = minerSession 3000 ∧
      ((handleSubmitRPC (sampleServer true false true true false (some sampleTemplate))
        (minerState 5000 3000) 0 "0xabcdef0123456789abcdef0123456789abcdef01" "rig1"
        [sampleNonce, sampleHash, sampleHash]).2.mem 0).lastShareTime = 5000 :=
  ⟨((only_accepted_share_mutates (sampleServer true false true true false (some sampleTemplate))
      (minerState 5000 3000) 0 "0xabcdef0123456789abcdef0123456789abcdef01" "rig1"
      []).1 (false, some ⟨-1, "Invalid params"⟩) (by decide) (by decide)).2.1,
    ((only_accepted_share_mutates (sampleServer true false true true false (some sampleTemplate))
      (minerState 5000 3000) 0 "0xabcdef0123456789abcdef0123456789abcdef01" "rig1"
      [sampleNonce, upperCaseHash, sampleHash]).1 (false, some ⟨-1, "Malformed PoW result"⟩)
      (by decide) (by decide)).2.1,
    ((only_accepted_share_mutates (sampleServer true true true true false (some sampleTemplate))
      (minerState 5000 3000) 0 "0xabcdef0123456789abcdef0123456789abcdef01" "rig1"
      [sampleNonce, sampleHash, sampleHash]).1 (false, some ⟨22, "Duplicate share"⟩)
      (by decide) (by decide)).2.1,
    ((only_accepted_share_mutates (sampleServer true false false true false (some sampleTemplate))
      (minerState 5000 3000) 0 "0xabcdef0123456789abcdef0123456789abcdef01" "rig1"
      [sampleNonce, sampleHash, sampleHash]).1 (false, none) (by decide) (by decide)).2.1,
    ((only_accepted_share_mutates (sampleServer true false true false false (some sampleTemplate))
      (minerState 5000 3000) 0 "0xabcdef0123456789abcdef0123456789abcdef01" "rig1"
      [sampleNonce, sampleHash, sampleHash]).1 (true, some ⟨-1, "High rate of invalid shares"⟩)
      (by decide) (by decide)).2.1,
    by decide⟩

end Proxy
